import Mathlib

/-!
Verification development for the GENAI_NETWORK-BOT repository
(TypeScript backend: `backend-ts/src/services/*.ts`, `backend-ts/src/routes/*.ts`).

The development shallowly embeds the stateful orchestration core:

* `RouterSim`   — `RouterSimulator` from `services/LLMIntegration.ts`
* `MemoryM`     — `MemoryManager` / `SimpleVectorStore` from `services/NetworkOperations.ts`
* `AgentSys`    — `AIAgentSystem` / `Agent` from `routes/apiKeys.ts`
* `NetAuto`     — `NetworkAutomation` from `routes/apiKeys.ts`
* `NetOps`      — `NetworkOperations` device store from `services/NetworkOperations.ts`
* `PipelineM`   — `PipelineManager` from the pipeline-manager source file

External collaborators are modelled as explicit parameters:
the language-model backend (`LLMIntegration.generateConfiguration`) is an
opaque result value or a function from the prompt to a result, `JSON.parse`
of untrusted model replies is an explicit parse-outcome parameter, and
`uuidv4()` / `new Date()` values are passed in as plain strings.  `Map`s are
association lists (insertion order preserved, `set` replaces in place),
matching JavaScript `Map` iteration semantics.  Logging calls and
timestamp-only fields (`createdAt`, `lastModified`, …) are dropped: no claim
mentions them and they do not feed back into control flow.
-/

namespace JsStr

/-- JavaScript whitespace test restricted to the ASCII range
(`\s` of JS regexes; the sources only ever produce ASCII configuration text). -/
def isWS (c : Char) : Bool :=
  c = ' ' || c = '\t' || c = '\n' || c = '\r' || c = '\x0b' || c = '\x0c'

/-- `\w` of JS regexes: `[A-Za-z0-9_]`. -/
def isWordChar (c : Char) : Bool :=
  c.isAlpha || c.isDigit || c = '_'

/-- `[\w-]`: word character or dash (hostname capture class). -/
def isWordDash (c : Char) : Bool := isWordChar c || c = '-'

/-- `[\w\/]`: word character or slash (interface-name capture class). -/
def isWordSlash (c : Char) : Bool := isWordChar c || c = '/'

/-- `[\d\.]`: digit or dot (IP-address capture class). -/
def isDigitDot (c : Char) : Bool := c.isDigit || c = '.'

/-- `String.prototype.trim` on a character list: strip leading and trailing
whitespace. -/
def jsTrim (cs : List Char) : List Char :=
  ((cs.dropWhile isWS).reverse.dropWhile isWS).reverse

/-- `String.prototype.toLowerCase` (ASCII). -/
def jsLower (cs : List Char) : List Char := cs.map Char.toLower

/-- `trim().toLowerCase()`, the combination used on every command string in
`RouterSimulator.executeCommand`. -/
def jsTrimLower (cs : List Char) : List Char := jsLower (jsTrim cs)

/-- `String.prototype.includes`: substring test. -/
def jsIncludes (sub : List Char) : List Char → Bool
  | [] => sub.isEmpty
  | c :: cs => sub.isPrefixOf (c :: cs) || jsIncludes sub cs

/-- Case-sensitive literal match: returns the rest of the input after the
literal when the literal is a prefix. -/
def matchLit : List Char → List Char → Option (List Char)
  | [], cs => some cs
  | _, [] => none
  | l :: ls, c :: cs => if l = c then matchLit ls cs else none

/-- Case-insensitive literal match (for the `/i` flag); the literal is given
lower-cased, input characters are lowered before comparison. -/
def matchLitCI : List Char → List Char → Option (List Char)
  | [], cs => some cs
  | _, [] => none
  | l :: ls, c :: cs => if l = c.toLower then matchLitCI ls cs else none

/-- Greedy `p+`: one or more characters of class `p`; returns the (nonempty)
run and the rest, or fails. -/
def matchPlus (p : Char → Bool) (cs : List Char) : Option (List Char × List Char) :=
  let run := cs.takeWhile p
  if run.isEmpty then none else some (run, cs.dropWhile p)

end JsStr

namespace RouterSim

open JsStr

/-- `RouterInterface` (`name`, `ipAddress`, `subnetMask`, `status`) from
`services/LLMIntegration.ts`. -/
structure RouterInterface where
  name : String
  ipAddress : String
  subnetMask : String
  status : String
deriving DecidableEq, Repr

/-- `SimulatedRouter` state; `routingTable`, `arpTable`, CPU/memory gauges and
timestamps are omitted (constants or timestamps never read by any operation
modelled here). -/
structure SimulatedRouter where
  id : String
  name : String
  description : String
  managementIp : String
  status : String
  model : String
  iosVersion : String
  interfaces : List RouterInterface
  runningConfig : String
  startupConfig : String
deriving DecidableEq, Repr

/-- Result record of `LLMIntegration.generateConfiguration`
(`ConfigurationResult`): `success` plus optional `configuration` / `error`
texts.  `none` models an absent (`undefined`) field. -/
structure LLMResult where
  success : Bool
  configuration : Option String
  error : Option String
deriving DecidableEq, Repr

/-- JavaScript truthiness of an optional string: `undefined` and `""` are
falsy. -/
def truthy : Option String → Bool
  | none => false
  | some s => !(s = "")

/-- Command/configuration result record (`{success, output?, error?}`). -/
structure CmdResult where
  success : Bool
  output : Option String
  error : Option String
deriving DecidableEq, Repr

/-- `RouterSimulator.addInterface`: replace the interface with the same name,
else append. -/
def addInterface (router : SimulatedRouter) (ifd : RouterInterface) : SimulatedRouter :=
  let rec upd : List RouterInterface → List RouterInterface
    | [] => [ifd]
    | i :: rest => if i.name = ifd.name then ifd :: rest else i :: upd rest
  { router with interfaces := upd router.interfaces }

/-- `RouterSimulator.updateRunningConfig`. -/
def updateRunningConfig (router : SimulatedRouter) (config : String) : SimulatedRouter :=
  { router with runningConfig := config }

/-- `RouterSimulator.saveRunningConfigToStartup`. -/
def saveRunningConfigToStartup (router : SimulatedRouter) : SimulatedRouter :=
  { router with startupConfig := router.runningConfig }

/-- Attempt of `/hostname\s+([\w-]+)/` at the current position: literal
`hostname`, one or more whitespace, then the captured `[\w-]+` run. -/
def hostnameAt (cs : List Char) : Option (List Char) :=
  match matchLit "hostname".data cs with
  | none => none
  | some r1 =>
    match matchPlus isWS r1 with
    | none => none
    | some (_, r2) =>
      match matchPlus isWordDash r2 with
      | none => none
      | some (cap, _) => some cap

/-- Leftmost match of `/hostname\s+([\w-]+)/` (`String.prototype.match`):
scan positions left to right. -/
def findHostname : List Char → Option (List Char)
  | [] => none
  | c :: cs =>
    match hostnameAt (c :: cs) with
    | some cap => some cap
    | none => findHostname cs

/-- Attempt of `/ip\s+address\s+([\d\.]+)\s+([\d\.]+)/` at the current
position, returning the two captures. -/
def ipAddressAt (cs : List Char) : Option (List Char × List Char) :=
  match matchLit "ip".data cs with
  | none => none
  | some r1 =>
    match matchPlus isWS r1 with
    | none => none
    | some (_, r2) =>
      match matchLit "address".data r2 with
      | none => none
      | some r3 =>
        match matchPlus isWS r3 with
        | none => none
        | some (_, r4) =>
          match matchPlus isDigitDot r4 with
          | none => none
          | some (ip, r5) =>
            match matchPlus isWS r5 with
            | none => none
            | some (_, r6) =>
              match matchPlus isDigitDot r6 with
              | none => none
              | some (mask, _) => some (ip, mask)

/-- Leftmost match of the `ip address` regex. -/
def findIpAddress : List Char → Option (List Char × List Char)
  | [] => none
  | c :: cs =>
    match ipAddressAt (c :: cs) with
    | some caps => some caps
    | none => findIpAddress cs

/-- Attempt of `/interface\s+([\w\/]+)/i` at the current position: the
capture is taken from the original (non-lowered) characters. -/
def interfaceAt (cs : List Char) : Option (List Char × List Char) :=
  match matchLitCI "interface".data cs with
  | none => none
  | some r1 =>
    match matchPlus isWS r1 with
    | none => none
    | some (_, r2) =>
      match matchPlus isWordSlash r2 with
      | none => none
      | some (cap, rest) => some (cap, rest)

/-- `config.split(/interface\s+([\w\/]+)/i)`, JavaScript semantics: the
pieces between matches with each match's capture group spliced in between.
`fuel` bounds the recursion by the input length (each match consumes at
least one character, so `fuel := cs.length` is always enough). -/
def splitInterfaceFuel : Nat → List Char → List Char → List (List Char)
  | 0, acc, rest => [acc.reverse ++ rest]
  | _ + 1, acc, [] => [acc.reverse]
  | fuel + 1, acc, c :: cs =>
    match interfaceAt (c :: cs) with
    | some (cap, rest) => acc.reverse :: cap :: splitInterfaceFuel fuel [] rest
    | none => splitInterfaceFuel fuel (c :: acc) cs

def splitInterface (cs : List Char) : List (List Char) :=
  splitInterfaceFuel cs.length [] cs

/-- One step of the interface-extraction loop body of
`RouterSimulator.updateRouterStateFromConfig`: given the capture
(`interfaceName`, untrimmed) and the following block, derive the interface
and apply `addInterface`.  `status` is `"down"` iff the block *contains the
substring* `shutdown` (this is what the source tests with
`interfaceConfig.includes("shutdown")`), else `"up"`. -/
def applyInterfaceBlock (router : SimulatedRouter) (nameCs blockCs : List Char) :
    SimulatedRouter :=
  let interfaceName := String.mk (jsTrim nameCs)
  let interfaceConfig := jsTrim blockCs
  let (ipAddress, subnetMask) :=
    match findIpAddress interfaceConfig with
    | some (ip, mask) => (String.mk ip, String.mk mask)
    | none => ("", "")
  let status := if jsIncludes "shutdown".data interfaceConfig then "down" else "up"
  addInterface router
    { name := interfaceName, ipAddress := ipAddress, subnetMask := subnetMask,
      status := status }

/-- The `for (let i = 1; i < blocks.length; i += 2)` loop: consume
(capture, block) pairs; a trailing capture without a following block is
skipped (`i + 1 < blocks.length` guard). -/
def applyInterfaceBlocks (router : SimulatedRouter) : List (List Char) → SimulatedRouter
  | nameCs :: blockCs :: rest =>
    applyInterfaceBlocks (applyInterfaceBlock router nameCs blockCs) rest
  | _ => router

/-- `RouterSimulator.updateRouterStateFromConfig`: extract `hostname`,
then update/insert an interface per `interface …` block. -/
def updateRouterStateFromConfig (router : SimulatedRouter) (config : String) :
    SimulatedRouter :=
  let router :=
    match findHostname config.data with
    | some cap => { router with name := String.mk cap }
    | none => router
  match splitInterface config.data with
  | [] => router
  | _ :: blocks => applyInterfaceBlocks router blocks

/-- Outcome of `JSON.parse` on the untrusted validator reply inside
`RouterSimulator.applyConfiguration`: either the parse throws
(`unparseable`, and configuration proceeds), or it yields an object whose
`valid` truthiness and `issues` array are as given. -/
inductive ValidationParse where
  | unparseable
  | parsed (valid : Bool) (issues : List String)
deriving DecidableEq, Repr

/-- `", "`-join of the issue list (`validation.issues.join(", ")`). -/
def joinIssues : List String → String
  | [] => ""
  | [s] => s
  | s :: rest => s ++ ", " ++ joinIssues rest

/-- `RouterSimulator.applyConfiguration` for one router.  `llm` is the result
of the `generateConfiguration` validator call and `vp` the outcome of
`JSON.parse` on its reply.  Returns the updated router and the call result.
(The `activeConnections.set(sessionId, routerId)` bookkeeping touches the
session map only, never the router, and is dropped.) -/
def applyConfiguration (router : SimulatedRouter) (config : String)
    (llm : LLMResult) (vp : ValidationParse) : SimulatedRouter × CmdResult :=
  if !llm.success || !truthy llm.configuration then
    (router,
      { success := false, output := none,
        error := some (match llm.error with
          | some e => if e = "" then "Failed to validate configuration" else e
          | none => "Failed to validate configuration") })
  else
    match vp with
    | .parsed valid issues =>
      if !valid then
        (router,
          { success := false, output := none,
            error := some ("Configuration validation failed: " ++ joinIssues issues) })
      else
        let router := updateRunningConfig router config
        let router := updateRouterStateFromConfig router config
        (router, { success := true, output := some "Configuration applied successfully",
                   error := none })
    | .unparseable =>
      let router := updateRunningConfig router config
      let router := updateRouterStateFromConfig router config
      (router, { success := true, output := some "Configuration applied successfully",
                 error := none })

/-- The `show interfaces` rendering loop. -/
def renderInterfaces : List RouterInterface → String
  | [] => ""
  | i :: rest =>
    i.name ++ " is " ++ i.status ++ "\n  Internet address is " ++
      i.ipAddress ++ "/" ++ i.subnetMask ++ "\n" ++ renderInterfaces rest

/-- `command.trim().toLowerCase()`, the normalised command all dispatch
tests of `executeCommand` are made on. -/
def cmdKey (command : String) : List Char := jsTrimLower command.data

/-- `RouterSimulator.executeCommand` for one router.  `llm` is the result of
the `generateConfiguration` call made (unconditionally, before any
command-kind dispatch) on the command prompt. -/
def executeCommand (router : SimulatedRouter) (command : String)
    (llm : LLMResult) : SimulatedRouter × CmdResult :=
  let c := cmdKey command
  if !llm.success || !truthy llm.configuration then
    (router,
      { success := false, output := none,
        error := some (match llm.error with
          | some e => if e = "" then "Failed to process command" else e
          | none => "Failed to process command") })
  else if "conf t".data.isPrefixOf c || "configure terminal".data.isPrefixOf c then
    (router, { success := true,
               output := some "Enter configuration commands, one per line. End with CNTL/Z.",
               error := none })
  else if "show".data.isPrefixOf c then
    if jsIncludes "running-config".data c then
      (router, { success := true, output := some router.runningConfig, error := none })
    else if jsIncludes "startup-config".data c then
      (router, { success := true,
                 output := some (if router.startupConfig = "" then
                   "startup-config is not set" else router.startupConfig),
                 error := none })
    else if jsIncludes "interfaces".data c then
      (router, { success := true, output := some (renderInterfaces router.interfaces),
                 error := none })
    else
      (router, { success := true, output := llm.configuration, error := none })
  else if c = "write memory".data || c = "copy running-config startup-config".data then
    (saveRunningConfigToStartup router,
      { success := true, output := some "Building configuration...\n[OK]", error := none })
  else
    (router, { success := true, output := llm.configuration, error := none })

/-- `RouterConfig` (`{runningConfig, startupConfig}`). -/
structure RouterConfig where
  runningConfig : String
  startupConfig : String
deriving DecidableEq, Repr

/-- Association-list `get` for a JavaScript `Map`. -/
def mapGet {α : Type} (m : List (String × α)) (k : String) : Option α :=
  match m.find? (fun p => p.1 = k) with
  | some p => some p.2
  | none => none

/-- Association-list `set` for a JavaScript `Map`: replace in place if the
key exists, else append (insertion order preserved). -/
def mapSet {α : Type} (m : List (String × α)) (k : String) (v : α) : List (String × α) :=
  match m with
  | [] => [(k, v)]
  | (k', v') :: rest => if k' = k then (k, v) :: rest else (k', v') :: mapSet rest k v

/-- The simulator's router map. -/
def Routers := List (String × SimulatedRouter)

/-- `RouterSimulator.getRouterConfig`. -/
def getRouterConfig (routers : Routers) (routerId : String) : Option RouterConfig :=
  match mapGet routers routerId with
  | none => none
  | some r => some { runningConfig := r.runningConfig, startupConfig := r.startupConfig }

/-- Map-level `executeCommand`: `Router not found` short-circuit, else run on
the stored router and write it back. -/
def simExecuteCommand (routers : Routers) (routerId : String) (command : String)
    (llm : LLMResult) : Routers × CmdResult :=
  match mapGet routers routerId with
  | none => (routers, { success := false, output := none, error := some "Router not found" })
  | some r =>
    let (r', res) := executeCommand r command llm
    (mapSet routers routerId r', res)

/-- Map-level `applyConfiguration`. -/
def simApplyConfiguration (routers : Routers) (routerId : String) (config : String)
    (llm : LLMResult) (vp : ValidationParse) : Routers × CmdResult :=
  match mapGet routers routerId with
  | none => (routers, { success := false, output := none, error := some "Router not found" })
  | some r =>
    let (r', res) := applyConfiguration r config llm vp
    (mapSet routers routerId r', res)

end RouterSim

namespace MemoryM

/-- `AgentMemoryEntry` (`id`, `input`, `output`, `timestamp`, `metadata`);
metadata objects are modelled as string association lists. -/
structure AgentMemoryEntry where
  id : String
  input : String
  output : String
  timestamp : String
  metadata : List (String × String)
deriving DecidableEq, Repr

/-- `AgentMemory`: newest-first `shortTerm` plus `longTerm`. -/
structure AgentMemory where
  shortTerm : List AgentMemoryEntry
  longTerm : List AgentMemoryEntry
deriving DecidableEq, Repr

/-- The fresh bucket `{shortTerm: [], longTerm: []}` installed on first
`storeMemory` for an agent. -/
def emptyAgentMemory : AgentMemory := { shortTerm := [], longTerm := [] }

/-- One `SimpleVectorStore` document: `text` plus the metadata object
`{agentId, timestamp, ...entry.metadata}` (kept structured here). -/
structure VecDoc where
  text : String
  agentId : String
  timestamp : String
  metadata : List (String × String)
deriving DecidableEq, Repr

/-- `MemoryManager` state: the per-agent memory map and the vector store's
document map. -/
structure MemState where
  buckets : List (String × AgentMemory)
  docs : List (String × VecDoc)
deriving DecidableEq, Repr

/-- The short-term bookkeeping of `MemoryManager.storeMemory` on one agent's
bucket: `unshift` the new entry; if the list then exceeds 10 entries, `pop`
the oldest and `push` it onto long-term. -/
def storeBucket (m : AgentMemory) (e : AgentMemoryEntry) : AgentMemory :=
  let st := e :: m.shortTerm
  if st.length > 10 then
    { shortTerm := st.dropLast,
      longTerm := m.longTerm ++ (match st.getLast? with
        | some oldest => [oldest]
        | none => []) }
  else
    { shortTerm := st, longTerm := m.longTerm }

/-- `MemoryManager.storeMemory`: build the entry with the fresh id, install
an empty bucket for an unknown agent, update short/long term, and add the
`input output` text to the vector store under the entry id. -/
def storeMemory (st : MemState) (agentId newId input output timestamp : String)
    (metadata : List (String × String)) : MemState :=
  let entry : AgentMemoryEntry :=
    { id := newId, input := input, output := output, timestamp := timestamp,
      metadata := metadata }
  let bucket := (RouterSim.mapGet st.buckets agentId).getD emptyAgentMemory
  { buckets := RouterSim.mapSet st.buckets agentId (storeBucket bucket entry),
    docs := RouterSim.mapSet st.docs newId
      { text := input ++ " " ++ output, agentId := agentId, timestamp := timestamp,
        metadata := metadata } }

/-- `storeMemory` with the entry's fields taken from a prebuilt record (the
entry's `id` plays the role of the fresh uuid). -/
def storeEntry (st : MemState) (agentId : String) (e : AgentMemoryEntry) : MemState :=
  storeMemory st agentId e.id e.input e.output e.timestamp e.metadata

/-- `query.toLowerCase().split(/\s+/)`, JavaScript semantics (leading or
trailing whitespace contributes empty-string terms). `fuel` bounds the
recursion by the input length. -/
def splitWSFuel : Nat → List Char → List Char → List (List Char)
  | 0, acc, rest => [acc.reverse ++ rest]
  | _ + 1, acc, [] => [acc.reverse]
  | fuel + 1, acc, c :: cs =>
    if JsStr.isWS c then
      acc.reverse :: splitWSFuel fuel [] ((c :: cs).dropWhile JsStr.isWS)
    else
      splitWSFuel fuel (c :: acc) cs

def splitWS (cs : List Char) : List (List Char) := splitWSFuel cs.length [] cs

/-- Stable insertion for a descending sort by an integer key: `x` is placed
before the first strictly-smaller key, after all keys `≥` its own.  Folding
from the right (`sortByDesc`) reproduces the stable descending order of
JavaScript `Array.prototype.sort` with comparator `(a, b) => key(b) - key(a)`. -/
def insertByDesc {α : Type} (key : α → Int) (x : α) : List α → List α
  | [] => [x]
  | y :: rest => if key y ≤ key x then x :: y :: rest else y :: insertByDesc key x rest

def sortByDesc {α : Type} (key : α → Int) (l : List α) : List α :=
  l.foldr (insertByDesc key) []

/-- `SimpleVectorStore.search` (the two-argument form used by
`retrieveMemories`): term-overlap score per document, keep positive scores,
stable-sort descending, take `limit`, return ids. -/
def searchDocs (docs : List (String × VecDoc)) (query : String) (limit : Nat) :
    List String :=
  let queryTerms := splitWS (JsStr.jsLower query.data)
  let scored := docs.filterMap (fun p =>
    let text := JsStr.jsLower p.2.text.data
    let score := (queryTerms.filter (fun t => JsStr.jsIncludes t text)).length
    if score > 0 then some (p.1, score) else none)
  ((sortByDesc (fun q => (q.2 : Int)) scored).take limit).map Prod.fst

/-- `MemoryManager.retrieveMemories`: all short-term entries, plus the
long-term entries whose ids the vector search returned, sorted newest first
by timestamp and truncated to `limit`.  `timeOf` is `new Date(·).getTime()`
(date parsing is the JavaScript runtime's). -/
def retrieveMemories (st : MemState) (timeOf : String → Int) (agentId query : String)
    (limit : Nat) : List AgentMemoryEntry :=
  let agentMemory := (RouterSim.mapGet st.buckets agentId).getD emptyAgentMemory
  let relevantDocIds := searchDocs st.docs query limit
  let longTermMemories := relevantDocIds.filterMap
    (fun docId => agentMemory.longTerm.find? (fun m => m.id = docId))
  let combined := agentMemory.shortTerm ++ longTermMemories
  (sortByDesc (fun m => timeOf m.timestamp) combined).take limit

end MemoryM

namespace NetOps

/-- `NetworkDevice`; optional string fields are plain strings with `""` for
an absent (`undefined`) value — the code only ever tests them for JavaScript
truthiness, which identifies the two.  `createdAt` is dropped. -/
structure NetworkDevice where
  id : String
  name : String
  ip : String
  deviceType : String
  username : String
  password : String
  enablePassword : String
  port : Nat
  status : String
  lastSeen : String
deriving DecidableEq, Repr

/-- Partial device payload accepted by `addDevice` (all fields optional). -/
structure PartialDevice where
  id : Option String := none
  name : Option String := none
  ip : Option String := none
  deviceType : Option String := none
  username : Option String := none
  password : Option String := none
  enablePassword : Option String := none
  port : Option Nat := none
  status : Option String := none
  lastSeen : Option String := none
deriving DecidableEq, Repr

/-- The `DEFAULT_SSH_*` configuration values from `config/config.ts`. -/
structure ConfigDefaults where
  defaultSshUsername : String
  defaultSshPassword : String
  defaultEnablePassword : String
deriving DecidableEq, Repr

/-- JavaScript `a || b` on an optional string (`undefined` and `""` are
falsy). -/
def orDefault (o : Option String) (d : String) : String :=
  match o with
  | some s => if s = "" then d else s
  | none => d

/-- JavaScript `a || b` on an optional number (`undefined` and `0` falsy). -/
def orDefaultNat (o : Option Nat) (d : Nat) : Nat :=
  match o with
  | some n => if n = 0 then d else n
  | none => d

/-- The `typeMapping` object of `addDevice`. -/
def typeMapping : String → Option String
  | "Router" => some "cisco_ios"
  | "Switch" => some "cisco_ios"
  | "Firewall" => some "cisco_asa"
  | "Access Point" => some "cisco_wlc"
  | _ => none

/-- `"*".repeat(s.length)`. -/
def starsOf (s : String) : String := String.mk (List.replicate s.length '*')

/-- The spread-plus-ternary masking applied verbatim in `getAllDevices`,
`getDeviceInfo` and the value returned by `addDevice`:
`password: device.password ? "*".repeat(device.password.length) : ""` and
likewise for `enablePassword`. -/
def maskedCopy (d : NetworkDevice) : NetworkDevice :=
  { d with
    password := if d.password = "" then "" else starsOf d.password,
    enablePassword := if d.enablePassword = "" then "" else starsOf d.enablePassword }

/-- The `devices` map of `NetworkOperations`. -/
def DeviceStore := List (String × NetworkDevice)

/-- `NetworkOperations.getAllDevices`. -/
def getAllDevices (st : DeviceStore) : List NetworkDevice :=
  st.map (fun p => maskedCopy p.2)

/-- `NetworkOperations.getDeviceInfo`. -/
def getDeviceInfo (st : DeviceStore) (deviceId : String) : Option NetworkDevice :=
  (RouterSim.mapGet st deviceId).map maskedCopy

/-- The `NetworkDevice` record constructed by `addDevice` (defaults filled
from the payload, the config, and the fresh uuid `newId`). -/
def buildDevice (cfg : ConfigDefaults) (dd : PartialDevice) (newId : String) :
    NetworkDevice :=
  { id := orDefault dd.id newId,
    name := orDefault dd.name "",
    ip := orDefault dd.ip "",
    deviceType :=
      match typeMapping (orDefault dd.deviceType "") with
      | some t => t
      | none => orDefault dd.deviceType "cisco_ios",
    username := orDefault dd.username cfg.defaultSshUsername,
    password := orDefault dd.password cfg.defaultSshPassword,
    enablePassword := orDefault dd.enablePassword cfg.defaultEnablePassword,
    port := orDefaultNat dd.port 22,
    status := orDefault dd.status "offline",
    lastSeen := orDefault dd.lastSeen "Never" }

/-- `NetworkOperations.addDevice`: store the real device, return the masked
copy. -/
def addDevice (st : DeviceStore) (cfg : ConfigDefaults) (dd : PartialDevice)
    (newId : String) : NetworkDevice × DeviceStore :=
  let device := buildDevice cfg dd newId
  (maskedCopy device, RouterSim.mapSet st device.id device)

end NetOps

namespace NetAuto

open JsStr RouterSim

/-- Result record of `NetworkAutomation.validateConfiguration`. -/
structure ValidationResult where
  valid : Bool
  issues : List String
deriving DecidableEq, Repr

/-- Attempt of `/ip address [\d\.]+\s+[\d\.]+/` (note the literal single
space after `address`) at the current position. -/
def ipAddrPatternAt (cs : List Char) : Bool :=
  match matchLit "ip address ".data cs with
  | none => false
  | some r1 =>
    match matchPlus isDigitDot r1 with
    | none => false
    | some (_, r2) =>
      match matchPlus isWS r2 with
      | none => false
      | some (_, r3) => (matchPlus isDigitDot r3).isSome

def hasIpAddrPattern : List Char → Bool
  | [] => false
  | c :: cs => ipAddrPatternAt (c :: cs) || hasIpAddrPattern cs

/-- Attempt of `/interface [\w\/]+/` (literal space) at the current
position. -/
def interfacePatternAt (cs : List Char) : Bool :=
  match matchLit "interface ".data cs with
  | none => false
  | some r1 => (matchPlus isWordSlash r1).isSome

def hasInterfacePattern : List Char → Bool
  | [] => false
  | c :: cs => interfacePatternAt (c :: cs) || hasInterfacePattern cs

/-- `NetworkAutomation.validateConfiguration`: the syntax and
security-best-practice checks, in source order; `valid` iff no issue was
collected. -/
def validateConfiguration (config : String) : ValidationResult :=
  let cs := config.data
  let issues : List String := []
  let issues := issues ++
    (if jsIncludes "ip address".data cs && !hasIpAddrPattern cs then
      ["Invalid IP address format"] else [])
  let issues := issues ++
    (if jsIncludes "interface".data cs && !hasInterfacePattern cs then
      ["Invalid interface format"] else [])
  let issues := issues ++
    (if !jsIncludes "service password-encryption".data cs then
      ["Password encryption not enabled"] else [])
  let issues := issues ++
    (if jsIncludes "enable password".data cs && !jsIncludes "enable secret".data cs then
      ["Using \x27enable password\x27 instead of \x27enable secret\x27"] else [])
  let issues := issues ++
    (if jsIncludes "telnet".data cs || jsIncludes "transport input telnet".data cs then
      ["Telnet is enabled, which is insecure"] else [])
  { valid := issues.isEmpty, issues := issues }

/-- `BulkOperation.status` values. -/
inductive OpStatus where
  | pending
  | running
  | completed
  | failed
deriving DecidableEq, Repr, BEq

/-- `operationType`. -/
inductive OpType where
  | command
  | configuration
deriving DecidableEq, Repr

/-- Observable state of a bulk operation at one point of its execution:
`status`, `progress` and the per-device `results` object. -/
structure BulkSnapshot where
  status : OpStatus
  progress : Nat
  results : List (String × CmdResult)
deriving DecidableEq, Repr

/-- Outcomes of the opaque collaborator calls made while processing one
device of a bulk operation: the Completion Provider reply for the device's
`executeCommand`/`applyConfiguration` call and, for configurations, the
`JSON.parse` outcome on the validator reply. -/
structure BulkEnv where
  llmFor : String → LLMResult
  parseFor : String → ValidationParse

/-- `operation.progress = Math.round((completedDevices / totalDevices) * 100)`
in exact rational arithmetic: `⌊100·k/n + 1/2⌋ = (200·k + n) / (2·n)` in
natural division (Math.round rounds half toward `+∞`; for `n = 0` the loop
never runs and the value is unused — natural division then gives `0`). -/
def progressVal (k n : Nat) : Nat := (200 * k + n) / (2 * n)

/-- Processing of one device inside `executeBulkOperation`: dispatch on the
operation type to the router simulator (whose own error handling means the
surrounding `try/catch` never fires in the simulated backend). -/
def bulkApplyOne (env : BulkEnv) (opType : OpType) (data : String)
    (routers : Routers) (deviceId : String) : Routers × CmdResult :=
  match opType with
  | .command => simExecuteCommand routers deviceId data (env.llmFor deviceId)
  | .configuration =>
    simApplyConfiguration routers deviceId data (env.llmFor deviceId)
      (env.parseFor deviceId)

/-- The device loop of `executeBulkOperation`, emitting the observable
snapshot after each device (`k` devices already completed, `p` the current
progress value, `n` the total vertex count), followed by the terminal
`completed` snapshot. -/
def bulkLoop (env : BulkEnv) (opType : OpType) (data : String) (n : Nat) :
    Nat → Nat → Routers → List (String × CmdResult) → List String → List BulkSnapshot
  | _, p, _, res, [] => [{ status := .completed, progress := p, results := res }]
  | k, _, routers, res, d :: rest =>
    let (routers', r) := bulkApplyOne env opType data routers d
    let res' := mapSet res d r
    let p' := progressVal (k + 1) n
    { status := .running, progress := p', results := res' } ::
      bulkLoop env opType data n (k + 1) p' routers' res' rest

/-- The sequence of observable states of one bulk operation:
`pending` at creation, `running` at execution start, one snapshot per
processed device, and the terminal `completed` snapshot. -/
def bulkRun (env : BulkEnv) (opType : OpType) (data : String)
    (deviceIds : List String) (routers : Routers) : List BulkSnapshot :=
  { status := .pending, progress := 0, results := [] } ::
    { status := .running, progress := 0, results := [] } ::
      bulkLoop env opType data deviceIds.length 0 0 routers [] deviceIds

/-- Non-decreasing `progress` along a snapshot sequence. -/
def progressMono : List BulkSnapshot → Bool
  | [] => true
  | [_] => true
  | a :: b :: rest => Nat.ble a.progress b.progress && progressMono (b :: rest)

/-- Default snapshot for total last-element access. -/
def dfltSnapshot : BulkSnapshot := { status := .pending, progress := 0, results := [] }

end NetAuto

namespace AgentSys

/-- `AgentTask.status` values. -/
inductive TaskStatus where
  | pending
  | running
  | completed
  | failed
deriving DecidableEq, Repr

/-- `AgentTask`; `createdAt` is dropped, `metadata` is a string association
list, `priority` a JavaScript integer. -/
structure AgentTask where
  id : String
  agentId : String
  agentType : String
  status : TaskStatus
  input : String
  context : String
  priority : Int
  metadata : List (String × String)
  startedAt : Option String
  completedAt : Option String
  output : Option String
  error : Option String
deriving DecidableEq, Repr

/-- `task.metadata?.stage`. -/
def metaStage (md : List (String × String)) : Option String :=
  RouterSim.mapGet md "stage"

/-- `index + 1` rendered as JavaScript would (`${index + 1}`). -/
def natText (n : Nat) : String := toString n

/-- The memory-rendering loop of `Agent.buildPrompt`
(`\n1. Input: …\n   Output: …`). -/
def renderMemories : Nat → List MemoryM.AgentMemoryEntry → String
  | _, [] => ""
  | i, m :: rest =>
    "\n" ++ natText (i + 1) ++ ". Input: " ++ m.input ++ "\n   Output: " ++ m.output ++
      renderMemories (i + 1) rest

/-- `Agent.buildPrompt`: the role-specific instruction prefix (switching on
the agent type and, for configuration agents, on `metadata.stage`), the
optional context, and the rendered relevant memories. -/
def buildPrompt (task : AgentTask) (memories : List MemoryM.AgentMemoryEntry) : String :=
  let prompt :=
    match task.agentType with
    | "configuration" =>
      let base := "You are a Cisco IOS Configuration Expert. Your task is to generate optimal, secure, and efficient network configurations.\n\n\nTask: " ++ task.input ++ "\n\n"
      if metaStage task.metadata = some "planning" then
        base ++ "Create a detailed plan for implementing this configuration. Return your response as a JSON object with a \x27plan\x27 property containing an array of steps."
      else if metaStage task.metadata = some "generation" then
        base ++ "Generate the complete Cisco IOS configuration based on the provided plan and requirements. Return your response as a JSON object with a \x27configuration\x27 property containing the full configuration as a string."
      else
        base
    | "validation" =>
      "You are a Cisco IOS Configuration Validator. Your task is to validate network configurations for syntax errors, security issues, and best practices.\n\n\nConfiguration to validate:\n" ++ task.input ++ "\n\nValidate this configuration and return your response as a JSON object with properties: \x27valid\x27 (boolean), \x27issues\x27 (array of strings), and \x27suggestions\x27 (array of strings)."
    | "troubleshooting" =>
      "You are a Network Troubleshooting Expert. Your task is to diagnose and fix issues in network configurations.\n\n\nInput: " ++ task.input ++ "\n\nAnalyze the configuration and error message. Return your response as a JSON object with properties: \x27diagnosis\x27 (string) and \x27suggestedFix\x27 (string)."
    | "deployment" =>
      "You are a Network Deployment Specialist. Your task is to plan and execute the deployment of network configurations.\n\n\nInput: " ++ task.input ++ "\n\nCreate a deployment plan and return your response as a JSON object with properties: \x27steps\x27 (array of deployment steps), \x27rollbackPlan\x27 (array of rollback steps), and \x27verificationSteps\x27 (array of verification steps)."
    | _ => ""
  let prompt := if task.context = "" then prompt else prompt ++ "\n\nContext: " ++ task.context
  if memories.isEmpty then prompt
  else prompt ++ "\n\nRelevant past interactions:" ++ renderMemories 0 memories

/-- Opaque collaborator outcomes for one `AIAgentSystem.executeTask` call:
the Completion Provider as a function of the composed prompt, and
`new Date(·).getTime()` for the timestamp sort inside memory retrieval. -/
structure SysEnv where
  llmCall : String → RouterSim.LLMResult
  timeOf : String → Int

/-- The prompt `Agent.executeTask` composes for the Completion Provider: the
role-specific template over the (by then `running`) task plus the retrieved
relevant memories. -/
def execPrompt (env : SysEnv) (st : MemoryM.MemState) (task : AgentTask)
    (nowStart : String) : String :=
  buildPrompt { task with status := .running, startedAt := some nowStart }
    (MemoryM.retrieveMemories st env.timeOf task.agentId task.input 5)

/-- `AIAgentSystem.executeTask` on a resolved task/agent pair (the
`Task not found` / `Agent not found` throws guard only map lookups):
mark the task running, run `Agent.executeTask` (memory retrieval, prompt
build, `processWithLLM`, memory store), and on any throw record the failure
on the task instead of re-raising.  `nowStart`/`nowEnd`/`memTs` are the
`new Date().toISOString()` values and `memId` the fresh memory-entry uuid. -/
def aiExecuteTask (env : SysEnv) (st : MemoryM.MemState) (task : AgentTask)
    (nowStart nowEnd memId memTs : String) : AgentTask × MemoryM.MemState :=
  let running := { task with status := .running, startedAt := some nowStart }
  let result := env.llmCall (execPrompt env st task nowStart)
  if result.success && RouterSim.truthy result.configuration then
    let out := result.configuration.getD ""
    let st' := MemoryM.storeMemory st task.agentId memId task.input out memTs
      task.metadata
    ({ running with
        status := .completed, output := some out, completedAt := some nowEnd },
      st')
  else
    let msg :=
      match result.error with
      | some e => if e = "" then "Failed to process with LLM" else e
      | none => "Failed to process with LLM"
    ({ running with
        status := .failed, error := some ("Error: " ++ msg),
        completedAt := some nowEnd },
      st)

end AgentSys

namespace PipelineM

open RouterSim

/-- `PipelineStage.status` values. -/
inductive StageStatus where
  | pending
  | running
  | completed
  | failed
deriving DecidableEq, Repr, BEq

/-- `Pipeline.status` values. -/
inductive PipelineStatus where
  | pending
  | running
  | completed
  | failed
deriving DecidableEq, Repr

/-- Device summary recorded by the retrieval pipeline's discovery stage. -/
structure RouterSummary where
  id : String
  name : String
  model : String
  iosVersion : String
  managementIp : String
  status : String
deriving DecidableEq, Repr

/-- One `deviceInfoMap` entry: the summary, or `{error: "Device not found"}`. -/
inductive DiscoveryEntry where
  | found (info : RouterSummary)
  | notFound
deriving DecidableEq, Repr

/-- One `configMap` entry: the extracted configuration, or the recorded
per-device error string. -/
inductive ConfigEntry where
  | ok (cfg : RouterConfig)
  | err (msg : String)
deriving DecidableEq, Repr

/-- One `analysisResults` entry: `{documentId, insights}` on success, or
`{error}` when a collaborator call inside the per-device `try` threw. -/
inductive AnalysisEntry where
  | ok (documentId : String) (insights : Option String)
  | err (msg : String)
deriving DecidableEq, Repr

/-- Structured stand-in for a stage's `output` string (the source stores
`JSON.stringify` of exactly these values, or a task's raw output text;
`nonStringConfig` marks the case where `JSON.parse(output).configuration`
existed but was not a string). -/
inductive StageData where
  | text (s : String)
  | nonStringConfig
  | discoveryMap (m : List (String × DiscoveryEntry))
  | configMap (m : List (String × ConfigEntry))
  | analysisMap (m : List (String × AnalysisEntry))
  | validation (v : NetAuto.ValidationResult)
  | deployResults (m : List (String × CmdResult))
deriving DecidableEq, Repr

/-- `PipelineStage`. -/
structure Stage where
  id : String
  name : String
  status : StageStatus
  output : Option StageData
deriving DecidableEq, Repr

/-- The pipeline's `output` payload. -/
inductive PipelineOutput where
  | deployment (configuration : String) (deploymentResults : List (String × CmdResult))
  | retrieval (deviceInfoMap : List (String × DiscoveryEntry))
      (configMap : List (String × ConfigEntry))
      (analysisResults : List (String × AnalysisEntry))
deriving DecidableEq, Repr

/-- `Pipeline` (ids, session and timestamps dropped; `input` is passed as
explicit arguments to the execution functions). -/
structure Pipeline where
  ptype : String
  status : PipelineStatus
  progress : Nat
  stages : List Stage
  output : Option PipelineOutput
  error : Option String
deriving DecidableEq, Repr

/-- `updatePipelineStage`: set status and output of the first stage with the
given id (stage ids are unique by construction). -/
def updStages (stages : List Stage) (sid : String) (st : StageStatus)
    (out : Option StageData) : List Stage :=
  match stages with
  | [] => []
  | s :: rest =>
    if s.id = sid then { s with status := st, output := out } :: rest
    else s :: updStages rest sid st out

def updStage (p : Pipeline) (sid : String) (st : StageStatus)
    (out : Option StageData) : Pipeline :=
  { p with stages := updStages p.stages sid st out }

/-- The catch-block of both execution functions: terminal `failed` status
with the stringified error. -/
def failPipeline (p : Pipeline) (msg : String) : Pipeline :=
  { p with status := .failed, error := some msg }

/-- Trace of `updatePipelineStage` calls: (stage id, new status), in call
order. -/
abbrev TraceEv := String × StageStatus

/-- The fresh stage list of `createDeploymentPipeline`. -/
def deployStages : List Stage :=
  [{ id := "planning", name := "Configuration Planning", status := .pending, output := none },
   { id := "generation", name := "Configuration Generation", status := .pending, output := none },
   { id := "testing", name := "Pre-deployment Testing", status := .pending, output := none },
   { id := "deployment", name := "Deployment Execution", status := .pending, output := none }]

/-- The fresh stage list of `createRetrievalPipeline`. -/
def retrievalStages : List Stage :=
  [{ id := "discovery", name := "Discovery & Connection", status := .pending, output := none },
   { id := "extraction", name := "Configuration Extraction", status := .pending, output := none },
   { id := "analysis", name := "Analysis & Storage", status := .pending, output := none }]

/-- Device context sent to the planning task (`name`, `model`, `iosVersion`,
`interfaces` of the first target device). -/
structure RouterCtx where
  name : String
  model : String
  iosVersion : String
  interfaces : List RouterInterface
deriving DecidableEq, Repr

def routerCtx (r : SimulatedRouter) : RouterCtx :=
  { name := r.name, model := r.model, iosVersion := r.iosVersion,
    interfaces := r.interfaces }

/-- Projection of the `AgentTask` returned by `AIAgentSystem.executeTask`
that the pipeline inspects (`status` and `output`). -/
structure TaskRes where
  status : AgentSys.TaskStatus
  output : Option String
deriving DecidableEq, Repr

/-- Outcome of `JSON.parse(planTask.output).plan`: the parse threw (the
pipeline then substitutes the fixed fallback plan), or produced some JSON
value (kept opaque — it is only re-embedded into the generation task's
input). -/
inductive PlanParse where
  | threw
  | parsed (planRepr : String)
deriving DecidableEq, Repr

/-- The plan value fed to the generation task. -/
inductive PlanVal where
  | fallback
  | parsed (planRepr : String)
deriving DecidableEq, Repr

/-- Structured form of the generation task's input
(`JSON.stringify({command, plan, deviceInfo})`). -/
structure GenInput where
  command : String
  plan : PlanVal
  deviceInfo : Option RouterCtx
deriving DecidableEq, Repr

/-- Outcome of `JSON.parse(generateTask.output).configuration`: the parse
threw (the raw output is then used as the configuration), or produced a
string, or produced a non-string value (which later makes
`validateConfiguration` throw a `TypeError`, caught into an invalid result). -/
inductive GenParse where
  | threw
  | parsedStr (c : String)
  | parsedNonStr
deriving DecidableEq, Repr

/-- Opaque collaborator outcomes for one deployment-pipeline run:
the two agent-task executions (modelled at the `AIAgentSystem` boundary,
which captures provider failures in the returned task and throws only on
unknown ids), the two `JSON.parse` calls on task outputs, and — per target
device — the validator call (provider reply and reply-parse outcome) made
inside `RouterSimulator.applyConfiguration`. -/
structure DeployEnv where
  runPlanning : String → Option RouterCtx → Except String TaskRes
  parsePlan : String → PlanParse
  runGeneration : GenInput → Except String TaskRes
  parseGen : String → GenParse
  applyLLM : String → LLMResult
  applyParse : String → ValidationParse

/-- The deployment-stage device loop: apply the configuration to every
target device through the simulator, recording each result. -/
def deployToDevices (env : DeployEnv) (config : String) :
    Routers → List (String × CmdResult) → List String →
      Routers × List (String × CmdResult)
  | routers, res, [] => (routers, res)
  | routers, res, d :: rest =>
    let (routers', r) :=
      simApplyConfiguration routers d config (env.applyLLM d) (env.applyParse d)
    deployToDevices env config routers' (mapSet res d r) rest

/-- Planning context: facts of the first target device only. -/
def deployDeviceInfo (routers : Routers) (deviceIds : List String) :
    Option RouterCtx :=
  match deviceIds with
  | [] => none
  | d :: _ =>
    match mapGet routers d with
    | some r => some (routerCtx r)
    | none => none

/-- `JSON.parse(planTask.output).plan`, with the fixed fallback plan on a
parse throw. -/
def planValOf (env : DeployEnv) (planOutput : String) : PlanVal :=
  match env.parsePlan planOutput with
  | .threw => .fallback
  | .parsed s => .parsed s

/-- `JSON.parse(generateTask.output).configuration`, with the raw output as
fallback on a parse throw; `none` marks a parsed non-string value. -/
def genConfigOf (env : DeployEnv) (genOutput : String) : Option String :=
  match env.parseGen genOutput with
  | .threw => some genOutput
  | .parsedStr c => some c
  | .parsedNonStr => none

/-- The testing-stage validation result: `validateConfiguration` on the
generated configuration string; a non-string configuration makes
`config.includes` throw a `TypeError`, which `validateConfiguration`'s own
catch turns into an invalid result. -/
def testValidation (genCfg : Option String) : NetAuto.ValidationResult :=
  match genCfg with
  | some c => NetAuto.validateConfiguration c
  | none =>
    { valid := false,
      issues := ["TypeError: Cannot read properties of undefined (reading \x27includes\x27)"] }

/-- `PipelineManager.executeDeploymentPipeline`: returns the final pipeline
record, the resulting simulator state and the stage-update trace. -/
def executeDeploymentPipeline (env : DeployEnv) (routers : Routers)
    (command : String) (deviceIds : List String) :
    Pipeline × Routers × List TraceEv :=
  let p : Pipeline :=
    { ptype := "deployment", status := .running, progress := 0,
      stages := deployStages, output := none, error := none }
  let deviceInfo : Option RouterCtx := deployDeviceInfo routers deviceIds
  let p := updStage p "planning" .running none
  let tr : List TraceEv := [("planning", .running)]
  match env.runPlanning command deviceInfo with
  | .error e => (failPipeline p e, routers, tr)
  | .ok t1 =>
    if t1.status ≠ .completed || !truthy t1.output then
      (failPipeline p "Error: Configuration planning failed", routers, tr)
    else
      let out1 := t1.output.getD ""
      let p := updStage p "planning" .completed (some (.text out1))
      let p := { p with progress := 25 }
      let p := updStage p "generation" .running none
      let tr := tr ++ [("planning", .completed), ("generation", .running)]
      let plan : PlanVal := planValOf env out1
      match env.runGeneration { command := command, plan := plan, deviceInfo := deviceInfo } with
      | .error e => (failPipeline p e, routers, tr)
      | .ok t2 =>
        if t2.status ≠ .completed || !truthy t2.output then
          (failPipeline p "Error: Configuration generation failed", routers, tr)
        else
          let out2 := t2.output.getD ""
          let genCfg : Option String := genConfigOf env out2
          let p := updStage p "generation" .completed
            (match genCfg with
             | some c => some (.text c)
             | none => some .nonStringConfig)
          let p := { p with progress := 50 }
          let p := updStage p "testing" .running none
          let tr := tr ++ [("generation", .completed), ("testing", .running)]
          let vres : NetAuto.ValidationResult := testValidation genCfg
          if !vres.valid then
            let p := updStage p "testing" .failed (some (.validation vres))
            let tr := tr ++ [("testing", .failed)]
            (failPipeline p ("Error: Validation failed: " ++ joinIssues vres.issues),
              routers, tr)
          else
            let p := updStage p "testing" .completed (some (.validation vres))
            let p := { p with progress := 75 }
            let p := updStage p "deployment" .running none
            let tr := tr ++ [("testing", .completed), ("deployment", .running)]
            let cfgStr := genCfg.getD ""
            let (routers', dres) := deployToDevices env cfgStr routers [] deviceIds
            if dres.all (fun q => q.2.success) then
              let p := updStage p "deployment" .completed (some (.deployResults dres))
              let p := { p with
                         status := .completed, progress := 100,
                         output := some (.deployment cfgStr dres) }
              (p, routers', tr ++ [("deployment", .completed)])
            else
              let p := updStage p "deployment" .failed (some (.deployResults dres))
              let tr := tr ++ [("deployment", .failed)]
              (failPipeline p "Error: Deployment failed for one or more devices",
                routers', tr)

/-- Opaque collaborator outcomes of the retrieval pipeline's analysis stage:
`agenticRAG.addDocument` (of title and content; the metadata object carries
no control flow) and the createTask-plus-executeTask insights call.  An
`Except.error` is a thrown value caught by the per-device `catch`. -/
structure RetrievalEnv where
  addDocument : String → String → Except String String
  runInsights : String → Except String TaskRes

/-- Discovery stage: snapshot per-device facts. -/
def discoverDevices (routers : Routers) (deviceIds : List String) :
    List (String × DiscoveryEntry) :=
  deviceIds.foldl
    (fun m d =>
      mapSet m d
        (match mapGet routers d with
         | some r =>
           .found { id := r.id, name := r.name, model := r.model,
                    iosVersion := r.iosVersion, managementIp := r.managementIp,
                    status := r.status }
         | none => .notFound))
    []

/-- Extraction stage: read each device's running/startup configuration
(`getRouterConfig` cannot throw, so the `catch` arm is dead in the simulated
backend). -/
def extractConfigs (routers : Routers) (deviceIds : List String) :
    List (String × ConfigEntry) :=
  deviceIds.foldl
    (fun m d =>
      mapSet m d
        (match getRouterConfig routers d with
         | some cfg => .ok cfg
         | none => .err "Failed to retrieve configuration"))
    []

/-- `deviceInfoMap[deviceId]?.name || deviceId`. -/
def docTitleName (deviceInfoMap : List (String × DiscoveryEntry)) (d : String) : String :=
  match mapGet deviceInfoMap d with
  | some (.found info) => if info.name = "" then d else info.name
  | _ => d

/-- The fixed prefix of the insights task input. -/
def insightsPrompt (config : String) : String :=
  "Analyze the following router configuration and provide insights:\n\n" ++ config

/-- Analysis stage: per device, skip when the extracted entry has no truthy
`runningConfig` (`if (!config) continue`), else store the configuration as a
document and run the insights task; a throw from either call is caught into
an `{error}` entry for that device only. -/
def analyzeDevices (env : RetrievalEnv)
    (deviceInfoMap : List (String × DiscoveryEntry))
    (configMap : List (String × ConfigEntry)) (deviceIds : List String) :
    List (String × AnalysisEntry) :=
  deviceIds.foldl
    (fun m d =>
      match mapGet configMap d with
      | some (.ok cfg) =>
        if cfg.runningConfig = "" then m
        else
          match env.addDocument ("Configuration for " ++ docTitleName deviceInfoMap d)
              cfg.runningConfig with
          | .error e => mapSet m d (.err e)
          | .ok documentId =>
            match env.runInsights (insightsPrompt cfg.runningConfig) with
            | .error e => mapSet m d (.err e)
            | .ok t => mapSet m d (.ok documentId t.output)
      | _ => m)
    []

/-- `PipelineManager.executeRetrievalPipeline`: returns the final pipeline
record and the stage-update trace (the simulator state is only read). -/
def executeRetrievalPipeline (env : RetrievalEnv) (routers : Routers)
    (deviceIds : List String) : Pipeline × List TraceEv :=
  let p : Pipeline :=
    { ptype := "retrieval", status := .running, progress := 0,
      stages := retrievalStages, output := none, error := none }
  let p := updStage p "discovery" .running none
  let deviceInfoMap := discoverDevices routers deviceIds
  let p := updStage p "discovery" .completed (some (.discoveryMap deviceInfoMap))
  let p := { p with progress := 33 }
  let p := updStage p "extraction" .running none
  let configMap := extractConfigs routers deviceIds
  let p := updStage p "extraction" .completed (some (.configMap configMap))
  let p := { p with progress := 66 }
  let p := updStage p "analysis" .running none
  let analysisResults := analyzeDevices env deviceInfoMap configMap deviceIds
  let p := updStage p "analysis" .completed (some (.analysisMap analysisResults))
  let p := { p with
             status := .completed, progress := 100,
             output := some (.retrieval deviceInfoMap configMap analysisResults) }
  (p,
    [("discovery", .running), ("discovery", .completed),
     ("extraction", .running), ("extraction", .completed),
     ("analysis", .running), ("analysis", .completed)])

/-- The `analysisResults` component of a finished retrieval pipeline, looked
up at a device id. -/
def analysisLookup (p : Pipeline) (d : String) : Option (Option AnalysisEntry) :=
  match p.output with
  | some (.retrieval _ _ ar) => some (mapGet ar d)
  | _ => none

/-- The `configMap` component of a finished retrieval pipeline, looked up at
a device id. -/
def configLookup (p : Pipeline) (d : String) : Option (Option ConfigEntry) :=
  match p.output with
  | some (.retrieval _ cm _) => some (mapGet cm d)
  | _ => none

/-- Status of the stage with the given id. -/
def stageStatusOf (p : Pipeline) (sid : String) : Option StageStatus :=
  (p.stages.find? (fun s => s.id = sid)).map Stage.status

/-- (id, status) projection of the stage list. -/
def stageStatuses (p : Pipeline) : List (String × StageStatus) :=
  p.stages.map (fun s => (s.id, s.status))

/-- Index of a stage id in the declared order. -/
def idxIn (order : List String) (sid : String) : Nat := order.indexOf sid

/-- Admissible per-stage event sequences: a stage is touched at most once as
`running` and then at most once terminally (forward-only advancement). -/
def seqOkB (l : List StageStatus) : Bool :=
  l == [] || l == [.running] || l == [.running, .completed] || l == [.running, .failed]

/-- Non-decreasing index sequence. -/
def nondecB : List Nat → Bool
  | [] => true
  | [_] => true
  | a :: b :: rest => Nat.ble a b && nondecB (b :: rest)

/-- After a `failed` event, no event for a later stage ever occurs. -/
def noLaterAfterFailedB (order : List String) : List TraceEv → Bool
  | [] => true
  | e :: rest =>
    (!(e.2 == .failed) ||
      rest.all (fun e2 => Nat.ble (idxIn order e2.1) (idxIn order e.1))) &&
    noLaterAfterFailedB order rest

/-- In a final stage list, every stage after a `failed` one is still
`pending`. -/
def failedHaltsB : List (String × StageStatus) → Bool
  | [] => true
  | (_, st) :: rest =>
    (!(st == .failed) || rest.all (fun q => q.2 == .pending)) && failedHaltsB rest

/-- All forward-progress conditions on a stage-update trace: per-stage
sequences admissible, stage indices non-decreasing (declared order), events
only for declared stages, and nothing for a later stage after a failure. -/
def traceOkB (order : List String) (tr : List TraceEv) : Bool :=
  order.all (fun sid => seqOkB ((tr.filter (fun e => e.1 == sid)).map Prod.snd)) &&
  nondecB (tr.map (fun e => idxIn order e.1)) &&
  tr.all (fun e => order.contains e.1) &&
  noLaterAfterFailedB order tr

def deployOrder : List String := ["planning", "generation", "testing", "deployment"]

def retrievalOrder : List String := ["discovery", "extraction", "analysis"]

end PipelineM

namespace RouterSim

/-- `RouterSimulator.createRouter` (the uuid is passed in; gauges, tables
and timestamps omitted as above). -/
def createRouter (id name description managementIp : String) : SimulatedRouter :=
  { id := id, name := name, description := description, managementIp := managementIp,
    status := "online", model := "CSR1000v", iosVersion := "IOS-XE 17.3.1a",
    interfaces := [], runningConfig := "", startupConfig := "" }

theorem addInterface_startupConfig (r : SimulatedRouter) (i : RouterInterface) :
    (addInterface r i).startupConfig = r.startupConfig := rfl

theorem applyInterfaceBlock_startupConfig (r : SimulatedRouter) (n b : List Char) :
    (applyInterfaceBlock r n b).startupConfig = r.startupConfig := rfl

theorem applyInterfaceBlocks_startupConfig :
    ∀ (blocks : List (List Char)) (r : SimulatedRouter),
      (applyInterfaceBlocks r blocks).startupConfig = r.startupConfig
  | [], _ => rfl
  | [_], _ => rfl
  | _ :: _ :: rest, r => by
    rw [applyInterfaceBlocks]
    rw [applyInterfaceBlocks_startupConfig rest _, applyInterfaceBlock_startupConfig]

theorem updateRouterStateFromConfig_startupConfig (r : SimulatedRouter)
    (config : String) :
    (updateRouterStateFromConfig r config).startupConfig = r.startupConfig := by
  unfold updateRouterStateFromConfig
  split <;> split <;> simp [applyInterfaceBlocks_startupConfig]

theorem applyConfiguration_startupConfig (r : SimulatedRouter) (config : String)
    (llm : LLMResult) (vp : ValidationParse) :
    (applyConfiguration r config llm vp).1.startupConfig = r.startupConfig := by
  unfold applyConfiguration
  split
  · rfl
  · cases vp with
    | parsed valid issues =>
      dsimp only
      split
      · rfl
      · rw [updateRouterStateFromConfig_startupConfig]; rfl
    | unparseable =>
      rw [updateRouterStateFromConfig_startupConfig]; rfl

theorem executeCommand_startupConfig (r : SimulatedRouter) (cmd : String)
    (llm : LLMResult) :
    (executeCommand r cmd llm).1.startupConfig = r.startupConfig ∨
      ((cmdKey cmd = "write memory".data ∨
        cmdKey cmd = "copy running-config startup-config".data) ∧
       (executeCommand r cmd llm).1 = saveRunningConfigToStartup r) := by
  simp only [executeCommand]
  repeat' split
  all_goals try (left; rfl)
  all_goals right; refine ⟨?_, rfl⟩
  all_goals rename_i h; simpa using h

end RouterSim

/-- A simulated router as created by `createRouter`, with a running
configuration already applied (used as concrete fixture). -/
def c1Router : RouterSim.SimulatedRouter :=
  RouterSim.createRouter "sim-1" "R1" "Demo router" "10.255.255.1"

/-- The round-trip configuration text of the claim: an interface block with
an address and an explicit `no shutdown`. -/
def c1Config : String :=
  "interface Gig0/1\n ip address 10.0.0.1 255.255.255.0\n no shutdown"

/-- C1: the claim states that applying a configuration containing
`interface Gig0/1 … ip address 10.0.0.1 255.255.255.0 … no shutdown` with an
accepting validator and then reading the device's interfaces yields the
entry `⟨"Gig0/1", "10.0.0.1", "255.255.255.0", "up"⟩`.  Evaluating
`applyConfiguration` at exactly that input shows the application succeeds
and name/address/mask round-trip as claimed, but the stored status is
`"down"`: `updateRouterStateFromConfig` decides the status with
`interfaceConfig.includes("shutdown")`, and the substring `shutdown` occurs
inside `no shutdown`.  The code contradicts the evident intent (in Cisco IOS
`no shutdown` enables the interface). -/
theorem claim_C1_no_shutdown_stored_as_down :
    (RouterSim.applyConfiguration c1Router c1Config
        { success := true, configuration := some "validator reply", error := none }
        (.parsed true [])).2.success = true ∧
    (RouterSim.applyConfiguration c1Router c1Config
        { success := true, configuration := some "validator reply", error := none }
        (.parsed true [])).1.interfaces =
      [{ name := "Gig0/1", ipAddress := "10.0.0.1", subnetMask := "255.255.255.0",
         status := "down" }] := by
  decide

/-- A router holding a running configuration, for the `show` command
claims. -/
def c7Router : RouterSim.SimulatedRouter :=
  { RouterSim.createRouter "sim-7" "R1" "Demo router" "10.255.255.1" with
      runningConfig := "hostname R1" }

/-- C7 (counterexample): `executeCommand` calls the Completion Provider
before any command dispatch and fails outright when that call fails, so a
`show running-config` is *not* a successful pure read "regardless of the
Completion Provider's behaviour": with a failing provider the result is a
failure and the output is not the running configuration. -/
theorem claim_C7_counterexample :
    (RouterSim.executeCommand c7Router "show running-config"
        { success := false, configuration := none,
          error := some "No active API key found for provider: groq" }).2 =
      { success := false, output := none,
        error := some "No active API key found for provider: groq" } := by
  decide

/-- C7 (amended): provided the Completion Provider call succeeds with a
nonempty reply, every command whose trimmed lower-cased text starts with
`show` is a pure read: the router is unchanged and the call succeeds, with
output the running configuration when the command mentions `running-config`,
else the startup configuration (or the fixed `startup-config is not set`
banner when that is empty) when it mentions `startup-config`, else the
rendered interface summary when it mentions `interfaces`. -/
theorem claim_C7_amended (router : RouterSim.SimulatedRouter) (command : String)
    (llm : RouterSim.LLMResult) (hsucc : llm.success = true) (s : String)
    (hs : llm.configuration = some s) (hsne : s ≠ "")
    (hshow : "show".data.isPrefixOf (RouterSim.cmdKey command) = true) :
    (RouterSim.executeCommand router command llm).1 = router ∧
    (RouterSim.executeCommand router command llm).2.success = true ∧
    (JsStr.jsIncludes "running-config".data (RouterSim.cmdKey command) = true →
      (RouterSim.executeCommand router command llm).2.output =
        some router.runningConfig) ∧
    (JsStr.jsIncludes "running-config".data (RouterSim.cmdKey command) = false →
     JsStr.jsIncludes "startup-config".data (RouterSim.cmdKey command) = true →
      (RouterSim.executeCommand router command llm).2.output =
        some (if router.startupConfig = "" then "startup-config is not set"
          else router.startupConfig)) ∧
    (JsStr.jsIncludes "running-config".data (RouterSim.cmdKey command) = false →
     JsStr.jsIncludes "startup-config".data (RouterSim.cmdKey command) = false →
     JsStr.jsIncludes "interfaces".data (RouterSim.cmdKey command) = true →
      (RouterSim.executeCommand router command llm).2.output =
        some (RouterSim.renderInterfaces router.interfaces)) := by
  obtain ⟨t, ht⟩ := List.isPrefixOf_iff_prefix.mp hshow
  have h1 : (!llm.success || !RouterSim.truthy llm.configuration) = false := by
    simp [hsucc, hs, RouterSim.truthy, hsne]
  have h2 : ("conf t".data.isPrefixOf (RouterSim.cmdKey command) ||
      "configure terminal".data.isPrefixOf (RouterSim.cmdKey command)) = false := by
    rw [← ht]
    simp [List.isPrefixOf_cons₂]
  simp only [RouterSim.executeCommand, h1, h2, hshow, Bool.false_eq_true, if_false,
    if_true, reduceIte]
  refine ⟨?_, ?_, ?_, ?_, ?_⟩ <;> intros <;> (repeat' split) <;> simp_all

/-- C7 (witness): the amended theorem applied at a concrete `show
running-config` with a succeeding provider. -/
theorem claim_C7_witness :
    (RouterSim.executeCommand c7Router " SHOW running-config "
        { success := true, configuration := some "generated", error := none }).2.output =
      some c7Router.runningConfig :=
  (claim_C7_amended c7Router " SHOW running-config "
      { success := true, configuration := some "generated", error := none }
      rfl "generated" rfl (by decide) (by decide)).2.2.1 (by decide)

/-- C8: `startupConfig` changes only through the explicit save:
`applyConfiguration` leaves it unchanged for every input (whatever the
validator replies or how its reply parses), and `executeCommand` either
leaves it unchanged or the trimmed lower-cased command was exactly
`write memory` / `copy running-config startup-config`, in which case the
router is precisely the result of `saveRunningConfigToStartup`. -/
theorem claim_C8_startup_only_via_save (r : RouterSim.SimulatedRouter)
    (config : String) (llm : RouterSim.LLMResult) (vp : RouterSim.ValidationParse)
    (cmd : String) (llm2 : RouterSim.LLMResult) :
    (RouterSim.applyConfiguration r config llm vp).1.startupConfig =
        r.startupConfig ∧
    ((RouterSim.executeCommand r cmd llm2).1.startupConfig = r.startupConfig ∨
      ((RouterSim.cmdKey cmd = "write memory".data ∨
        RouterSim.cmdKey cmd = "copy running-config startup-config".data) ∧
       (RouterSim.executeCommand r cmd llm2).1 =
         RouterSim.saveRunningConfigToStartup r)) :=
  ⟨RouterSim.applyConfiguration_startupConfig r config llm vp,
   RouterSim.executeCommand_startupConfig r cmd llm2⟩

namespace RouterSim

theorem mapGet_mapSet_self {α : Type} (m : List (String × α)) (k : String) (v : α) :
    mapGet (mapSet m k v) k = some v := by
  induction m with
  | nil => simp [mapGet, mapSet, List.find?]
  | cons p rest ih =>
    by_cases h : p.1 = k
    · simp [mapGet, mapSet, h, List.find?]
    · simpa [mapGet, mapSet, h, List.find?] using ih

theorem mapGet_mapSet_ne {α : Type} (m : List (String × α)) (k k' : String) (v : α)
    (h : k' ≠ k) : mapGet (mapSet m k v) k' = mapGet m k' := by
  have hkk : ¬(k = k') := fun hh => h hh.symm
  induction m with
  | nil => simp [mapGet, mapSet, List.find?, hkk]
  | cons p rest ih =>
    simp only [mapSet]
    by_cases hp : p.1 = k
    · rw [if_pos hp]
      simp [mapGet, List.find?, hkk, hp]
    · rw [if_neg hp]
      by_cases hq : p.1 = k'
      · simp [mapGet, List.find?, hq]
      · simpa [mapGet, List.find?, hq] using ih

theorem mapGet_mapSet_isSome {α : Type} (m : List (String × α)) (k k' : String)
    (v : α) (h : (mapGet m k').isSome = true) :
    (mapGet (mapSet m k v) k').isSome = true := by
  by_cases hk : k' = k
  · rw [hk, mapGet_mapSet_self]; rfl
  · rw [mapGet_mapSet_ne m k k' v hk]; exact h

end RouterSim

namespace MemoryM

/-- The bucket that the get-or-initialise step of `storeMemory` sees for an
agent (a missing agent gets the empty bucket). -/
def bucketOf (st : MemState) (agentId : String) : AgentMemory :=
  (RouterSim.mapGet st.buckets agentId).getD emptyAgentMemory

theorem bucketOf_storeEntry (st : MemState) (agentId : String)
    (e : AgentMemoryEntry) :
    bucketOf (storeEntry st agentId e) agentId =
      storeBucket (bucketOf st agentId) e := by
  simp [bucketOf, storeEntry, storeMemory, RouterSim.mapGet_mapSet_self]

theorem bucketOf_foldl (es : List AgentMemoryEntry) :
    ∀ (st : MemState) (agentId : String),
      bucketOf (es.foldl (fun s x => storeEntry s agentId x) st) agentId =
        es.foldl storeBucket (bucketOf st agentId) := by
  induction es with
  | nil => intro st agentId; rfl
  | cons e rest ih =>
    intro st agentId
    rw [List.foldl_cons, List.foldl_cons, ih, bucketOf_storeEntry]

theorem storeBucket_content (m : AgentMemory) (e : AgentMemoryEntry) :
    (storeBucket m e).longTerm ++ (storeBucket m e).shortTerm.reverse =
      m.longTerm ++ m.shortTerm.reverse ++ [e] := by
  simp only [storeBucket]
  split
  · rw [List.getLast?_eq_getLast _ (by simp)]
    dsimp only
    have key : [(e :: m.shortTerm).getLast (by simp)] ++
        (e :: m.shortTerm).dropLast.reverse = m.shortTerm.reverse ++ [e] := by
      have hd : (e :: m.shortTerm).dropLast ++ [(e :: m.shortTerm).getLast (by simp)] =
          e :: m.shortTerm := List.dropLast_concat_getLast (by simp)
      calc [(e :: m.shortTerm).getLast (by simp)] ++ (e :: m.shortTerm).dropLast.reverse
          = ((e :: m.shortTerm).dropLast ++
              [(e :: m.shortTerm).getLast (by simp)]).reverse := by
            rw [List.reverse_append]; simp
        _ = (e :: m.shortTerm).reverse := by rw [hd]
        _ = m.shortTerm.reverse ++ [e] := by simp
    rw [List.append_assoc, key, ← List.append_assoc]
  · dsimp only
    simp [List.append_assoc]

theorem storeBucket_shortLen (m : AgentMemory) (e : AgentMemoryEntry)
    (h : m.shortTerm.length ≤ 10) :
    (storeBucket m e).shortTerm.length = min 10 (m.shortTerm.length + 1) := by
  simp only [storeBucket]
  split
  · rename_i hlen
    dsimp only
    rw [List.length_dropLast]
    simp only [List.length_cons] at hlen ⊢
    omega
  · rename_i hlen
    dsimp only
    simp only [List.length_cons] at hlen ⊢
    omega

theorem foldl_storeBucket_shortLen (es : List AgentMemoryEntry) :
    ∀ (m : AgentMemory), m.shortTerm.length ≤ 10 →
      (es.foldl storeBucket m).shortTerm.length =
        min 10 (m.shortTerm.length + es.length) := by
  induction es with
  | nil => intro m h; simp; omega
  | cons e rest ih =>
    intro m h
    rw [List.foldl_cons]
    have h1 := storeBucket_shortLen m e h
    have h2 : (storeBucket m e).shortTerm.length ≤ 10 := by omega
    rw [ih _ h2, h1]
    simp only [List.length_cons]
    omega

theorem foldl_storeBucket_content (es : List AgentMemoryEntry) :
    ∀ (m : AgentMemory),
      (es.foldl storeBucket m).longTerm ++
          (es.foldl storeBucket m).shortTerm.reverse =
        m.longTerm ++ m.shortTerm.reverse ++ es := by
  induction es with
  | nil => intro m; simp
  | cons e rest ih =>
    intro m
    rw [List.foldl_cons, ih, storeBucket_content]
    simp

end MemoryM

/-- C4: for any agent that starts with no memory bucket, after any sequence
of `storeMemory` calls the short-term list holds at most 10 entries; the
long-term list followed by the reversed (oldest-first) short-term list is
exactly the sequence of stored entries in insertion order — so an
overflowing entry is moved, never duplicated, and the total entry count is
preserved; and after exactly 11 stores the short-term list has 10 entries
and long-term is precisely the first (oldest) stored entry. -/
theorem claim_C4_short_term_bound_and_fifo_eviction (st0 : MemoryM.MemState)
    (agentId : String) (es : List MemoryM.AgentMemoryEntry)
    (hfresh : RouterSim.mapGet st0.buckets agentId = none) :
    (MemoryM.bucketOf (es.foldl (fun s x => MemoryM.storeEntry s agentId x) st0)
        agentId).shortTerm.length ≤ 10 ∧
    (MemoryM.bucketOf (es.foldl (fun s x => MemoryM.storeEntry s agentId x) st0)
          agentId).longTerm ++
        (MemoryM.bucketOf (es.foldl (fun s x => MemoryM.storeEntry s agentId x) st0)
          agentId).shortTerm.reverse = es ∧
    (MemoryM.bucketOf (es.foldl (fun s x => MemoryM.storeEntry s agentId x) st0)
          agentId).shortTerm.length +
        (MemoryM.bucketOf (es.foldl (fun s x => MemoryM.storeEntry s agentId x) st0)
          agentId).longTerm.length = es.length ∧
    (es.length = 11 →
      (MemoryM.bucketOf (es.foldl (fun s x => MemoryM.storeEntry s agentId x) st0)
          agentId).shortTerm.length = 10 ∧
      (MemoryM.bucketOf (es.foldl (fun s x => MemoryM.storeEntry s agentId x) st0)
          agentId).longTerm = es.take 1) := by
  have hbase : MemoryM.bucketOf st0 agentId = MemoryM.emptyAgentMemory := by
    simp [MemoryM.bucketOf, hfresh]
  have hfold := MemoryM.bucketOf_foldl es st0 agentId
  rw [hbase] at hfold
  have hlen := MemoryM.foldl_storeBucket_shortLen es MemoryM.emptyAgentMemory
    (by simp [MemoryM.emptyAgentMemory])
  have hcontent := MemoryM.foldl_storeBucket_content es MemoryM.emptyAgentMemory
  have hS : MemoryM.emptyAgentMemory.shortTerm =
      ([] : List MemoryM.AgentMemoryEntry) := rfl
  have hL : MemoryM.emptyAgentMemory.longTerm =
      ([] : List MemoryM.AgentMemoryEntry) := rfl
  rw [hS, hL] at hcontent
  rw [hS] at hlen
  simp only [List.length_nil, Nat.zero_add, List.reverse_nil, List.append_nil,
    List.nil_append] at hlen hcontent
  rw [hfold]
  have hcount : (es.foldl MemoryM.storeBucket
        MemoryM.emptyAgentMemory).shortTerm.length +
      (es.foldl MemoryM.storeBucket MemoryM.emptyAgentMemory).longTerm.length =
        es.length := by
    have := congrArg List.length hcontent
    simp only [List.length_append, List.length_reverse] at this
    omega
  refine ⟨?_, hcontent, hcount, ?_⟩
  · rw [hlen]; omega
  · intro h11
    have hsl : (es.foldl MemoryM.storeBucket
        MemoryM.emptyAgentMemory).shortTerm.length = 10 := by
      rw [hlen, h11]
      omega
    refine ⟨hsl, ?_⟩
    have hll : (es.foldl MemoryM.storeBucket
        MemoryM.emptyAgentMemory).longTerm.length = 1 := by
      omega
    have : es.take 1 = (es.foldl MemoryM.storeBucket
        MemoryM.emptyAgentMemory).longTerm := by
      calc es.take 1
          = ((es.foldl MemoryM.storeBucket MemoryM.emptyAgentMemory).longTerm ++
              (es.foldl MemoryM.storeBucket
                MemoryM.emptyAgentMemory).shortTerm.reverse).take 1 := by rw [hcontent]
        _ = _ := List.take_left' hll
    exact this.symm

/-- Eleven sequential memory entries (distinct ids/inputs/timestamps). -/
def c4Entries : List MemoryM.AgentMemoryEntry :=
  (List.range 11).map (fun i =>
    { id := toString i, input := "input " ++ toString i,
      output := "output " ++ toString i, timestamp := toString i, metadata := [] })

/-- C4 (witness): the theorem applied to a fresh memory manager and 11
concrete entries. -/
theorem claim_C4_witness :
    (MemoryM.bucketOf (c4Entries.foldl
        (fun s x => MemoryM.storeEntry s "agent-1" x)
        { buckets := [], docs := [] }) "agent-1").shortTerm.length = 10 ∧
    (MemoryM.bucketOf (c4Entries.foldl
        (fun s x => MemoryM.storeEntry s "agent-1" x)
        { buckets := [], docs := [] }) "agent-1").longTerm = c4Entries.take 1 :=
  (claim_C4_short_term_bound_and_fifo_eviction { buckets := [], docs := [] }
      "agent-1" c4Entries rfl).2.2.2 (by decide)

namespace NetOps

theorem maskedCopy_password (d : NetworkDevice) :
    (maskedCopy d).password = starsOf d.password := by
  simp only [maskedCopy]
  split
  · rename_i h; rw [h]; rfl
  · rfl

theorem maskedCopy_enablePassword (d : NetworkDevice) :
    (maskedCopy d).enablePassword = starsOf d.enablePassword := by
  simp only [maskedCopy]
  split
  · rename_i h; rw [h]; rfl
  · rfl

theorem starsOf_ne (s : String) (hx : ∃ c ∈ s.data, c ≠ '*') : starsOf s ≠ s := by
  obtain ⟨c, hc, hne⟩ := hx
  intro heq
  have hdata : (starsOf s).data = s.data := congrArg String.data heq
  have hrep : (starsOf s).data = List.replicate s.length '*' := rfl
  rw [hrep] at hdata
  exact hne (List.eq_of_mem_replicate (hdata ▸ hc))

end NetOps

/-- A stored device whose (non-empty) password consists of a single
asterisk. -/
def c9Store : NetOps.DeviceStore :=
  [("1",
    { id := "1", name := "Core-Switch-01", ip := "192.168.1.10",
      deviceType := "cisco_ios", username := "admin", password := "*",
      enablePassword := "", port := 22, status := "online",
      lastSeen := "2 min ago" })]

/-- C9 (counterexample): for the stored device with the non-empty password
`"*"`, the public read returns the password field `"*"` — a string of `'*'`
of the right length, but literally equal to the stored secret, refuting the
claim's "never the secret itself". -/
theorem claim_C9_counterexample :
    ((NetOps.getDeviceInfo c9Store "1").map (fun d => d.password)) = some "*" ∧
    ((RouterSim.mapGet c9Store "1").map (fun d => d.password)) = some "*" := by
  decide

/-- C9 (amended): every public device read returns the password and
enable-password fields replaced by a string of `'*'` of the same length as
the stored secret — which differs from the secret itself whenever the secret
contains any non-`'*'` character — while the internally stored device keeps
the real password unchanged; `addDevice` returns the masked copy but stores
the real record. -/
theorem claim_C9_amended (st : NetOps.DeviceStore) (id : String)
    (d : NetOps.NetworkDevice) (cfg : NetOps.ConfigDefaults)
    (dd : NetOps.PartialDevice) (newId : String)
    (hfind : RouterSim.mapGet st id = some d)
    (hx : ∃ c ∈ d.password.data, c ≠ '*') :
    NetOps.getDeviceInfo st id = some (NetOps.maskedCopy d) ∧
    (NetOps.maskedCopy d).password = NetOps.starsOf d.password ∧
    (NetOps.maskedCopy d).enablePassword = NetOps.starsOf d.enablePassword ∧
    (NetOps.maskedCopy d).password ≠ d.password ∧
    NetOps.getAllDevices st = st.map (fun p => NetOps.maskedCopy p.2) ∧
    (NetOps.addDevice st cfg dd newId).1 =
      NetOps.maskedCopy (NetOps.buildDevice cfg dd newId) ∧
    RouterSim.mapGet (NetOps.addDevice st cfg dd newId).2
        (NetOps.buildDevice cfg dd newId).id =
      some (NetOps.buildDevice cfg dd newId) := by
  refine ⟨?_, NetOps.maskedCopy_password d, NetOps.maskedCopy_enablePassword d,
    ?_, rfl, rfl, ?_⟩
  · simp [NetOps.getDeviceInfo, hfind]
  · rw [NetOps.maskedCopy_password]
    exact NetOps.starsOf_ne d.password hx
  · simp [NetOps.addDevice, RouterSim.mapGet_mapSet_self]

/-- A stored device with an ordinary password. -/
def c9WitnessDevice : NetOps.NetworkDevice :=
  { id := "42", name := "Router-WAN-01", ip := "192.168.1.1",
    deviceType := "cisco_ios", username := "admin", password := "secret123",
    enablePassword := "enab", port := 22, status := "online", lastSeen := "now" }

/-- C9 (witness): the amended theorem at a concrete store. -/
theorem claim_C9_witness :
    NetOps.getDeviceInfo [("42", c9WitnessDevice)] "42" =
      some (NetOps.maskedCopy c9WitnessDevice) ∧
    (NetOps.maskedCopy c9WitnessDevice).password ≠ c9WitnessDevice.password :=
  ⟨(claim_C9_amended [("42", c9WitnessDevice)] "42" c9WitnessDevice
      { defaultSshUsername := "admin", defaultSshPassword := "",
        defaultEnablePassword := "" } {} "u-1" (by decide)
      ⟨'s', by decide, by decide⟩).1,
   (claim_C9_amended [("42", c9WitnessDevice)] "42" c9WitnessDevice
      { defaultSshUsername := "admin", defaultSshPassword := "",
        defaultEnablePassword := "" } {} "u-1" (by decide)
      ⟨'s', by decide, by decide⟩).2.2.2.1⟩

/-- C10: if the Completion Provider call made during agent execution fails
(no success, or no truthy reply text — `processWithLLM` then throws), the
executing agent's memory state is completely unchanged (nothing is stored for
the task), and `AIAgentSystem.executeTask` returns — rather than raises —
the task with status `failed`, its `error` field set, and `output` still
`null`. -/
theorem claim_C10_provider_failure_leaves_memory_unchanged
    (env : AgentSys.SysEnv) (st : MemoryM.MemState) (task : AgentSys.AgentTask)
    (nowStart nowEnd memId memTs : String)
    (hout : task.output = none)
    (hfail : ((env.llmCall (AgentSys.execPrompt env st task nowStart)).success &&
      RouterSim.truthy
        (env.llmCall (AgentSys.execPrompt env st task nowStart)).configuration) =
          false) :
    (AgentSys.aiExecuteTask env st task nowStart nowEnd memId memTs).2 = st ∧
    (AgentSys.aiExecuteTask env st task nowStart nowEnd memId memTs).1.status =
      .failed ∧
    (AgentSys.aiExecuteTask env st task nowStart nowEnd memId
        memTs).1.error.isSome = true ∧
    (AgentSys.aiExecuteTask env st task nowStart nowEnd memId memTs).1.output =
      none := by
  simp only [AgentSys.aiExecuteTask, hfail, Bool.false_eq_true, if_false, reduceIte]
  repeat' constructor
  all_goals first
    | rfl
    | exact hout

/-- A concrete pending troubleshooting task. -/
def c10Task : AgentSys.AgentTask :=
  { id := "task-1", agentId := "agent-1", agentType := "troubleshooting",
    status := .pending, input := "interface is down", context := "",
    priority := 1, metadata := [], startedAt := none, completedAt := none,
    output := none, error := none }

/-- A system environment whose Completion Provider always fails. -/
def c10Env : AgentSys.SysEnv :=
  { llmCall := fun _ =>
      { success := false, configuration := none,
        error := some "No active API key found for provider: groq" },
    timeOf := fun _ => 0 }

/-- C10 (witness): the theorem at a failing provider and a fresh memory
manager. -/
theorem claim_C10_witness :
    (AgentSys.aiExecuteTask c10Env { buckets := [], docs := [] } c10Task
        "t0" "t1" "m1" "t0").2 = { buckets := [], docs := [] } ∧
    (AgentSys.aiExecuteTask c10Env { buckets := [], docs := [] } c10Task
        "t0" "t1" "m1" "t0").1.status = .failed :=
  ⟨(claim_C10_provider_failure_leaves_memory_unchanged c10Env
      { buckets := [], docs := [] } c10Task "t0" "t1" "m1" "t0" rfl rfl).1,
   (claim_C10_provider_failure_leaves_memory_unchanged c10Env
      { buckets := [], docs := [] } c10Task "t0" "t1" "m1" "t0" rfl rfl).2.1⟩

namespace NetAuto

open RouterSim

theorem progressVal_mono (k n : Nat) : progressVal k n ≤ progressVal (k + 1) n := by
  unfold progressVal
  exact Nat.div_le_div_right (by omega)

theorem progressVal_zero (n : Nat) : progressVal 0 n = 0 := by
  unfold progressVal
  cases n with
  | zero => rfl
  | succ m => exact Nat.div_eq_of_lt (by omega)

theorem progressVal_full (n : Nat) (h : 1 ≤ n) : progressVal n n = 100 := by
  unfold progressVal
  have h2 : 200 * n + n = n + 2 * n * 100 := by ring
  rw [h2, Nat.add_mul_div_left _ _ (by omega : 0 < 2 * n),
    Nat.div_eq_of_lt (by omega)]

theorem bulkLoop_mono (env : BulkEnv) (ot : OpType) (data : String) (n : Nat) :
    ∀ (rest : List String) (k : Nat) (routers : Routers)
      (res : List (String × CmdResult)) (s : BulkSnapshot),
      s.progress = progressVal k n →
      progressMono (s :: bulkLoop env ot data n k (progressVal k n) routers res rest) =
        true := by
  intro rest
  induction rest with
  | nil =>
    intro k routers res s hs
    simp [bulkLoop, progressMono, hs, Nat.ble_eq]
  | cons d rest ih =>
    intro k routers res s hs
    rcases hb : bulkApplyOne env ot data routers d with ⟨routers', r⟩
    simp only [bulkLoop, hb]
    have htail := ih (k + 1) routers' (mapSet res d r)
      { status := .running, progress := progressVal (k + 1) n,
        results := mapSet res d r } rfl
    simp only [progressMono, Bool.and_eq_true, Nat.ble_eq]
    exact ⟨by rw [hs]; exact progressVal_mono k n, htail⟩

theorem bulkLoop_length (env : BulkEnv) (ot : OpType) (data : String) (n : Nat) :
    ∀ (rest : List String) (k p : Nat) (routers : Routers)
      (res : List (String × CmdResult)),
      (bulkLoop env ot data n k p routers res rest).length = rest.length + 1 := by
  intro rest
  induction rest with
  | nil => intro k p routers res; rfl
  | cons d rest ih =>
    intro k p routers res
    rcases hb : bulkApplyOne env ot data routers d with ⟨routers', r⟩
    simp only [bulkLoop, hb, List.length_cons, ih]

theorem bulkLoop_last (env : BulkEnv) (ot : OpType) (data : String) (n : Nat) :
    ∀ (rest : List String) (k p : Nat) (routers : Routers)
      (res : List (String × CmdResult)) (dflt : BulkSnapshot),
      ∃ resF,
        (bulkLoop env ot data n k p routers res rest).getLastD dflt =
          { status := .completed,
            progress := if rest = [] then p else progressVal (k + rest.length) n,
            results := resF } ∧
        (∀ d, d ∈ rest → (mapGet resF d).isSome = true) ∧
        (∀ d, (mapGet res d).isSome = true → (mapGet resF d).isSome = true) := by
  intro rest
  induction rest with
  | nil =>
    intro k p routers res dflt
    exact ⟨res, rfl, by simp, fun d h => h⟩
  | cons d rest ih =>
    intro k p routers res dflt
    rcases hb : bulkApplyOne env ot data routers d with ⟨routers', r⟩
    obtain ⟨resF, hlast, hmem, hpres⟩ :=
      ih (k + 1) (progressVal (k + 1) n) routers' (mapSet res d r)
        { status := .running, progress := progressVal (k + 1) n,
          results := mapSet res d r }
    refine ⟨resF, ?_, ?_, ?_⟩
    · simp only [bulkLoop, hb, List.getLastD_cons]
      rw [hlast, if_neg (by simp : ¬(d :: rest = []))]
      by_cases hrest : rest = []
      · subst hrest
        simp
      · rw [if_neg hrest]
        have hkl : k + 1 + rest.length = k + (d :: rest).length := by
          simp only [List.length_cons]
          omega
        rw [hkl]
    · intro d2 hd2
      rcases List.mem_cons.mp hd2 with h | h
      · subst h
        exact hpres d2 (by rw [mapGet_mapSet_self]; rfl)
      · exact hmem d2 h
    · intro d2 hd2
      exact hpres d2 (mapGet_mapSet_isSome res d d2 r hd2)

end NetAuto

/-- C5 (amended): over any bulk operation's execution, `progress` never
decreases; every device in the target list is attempted regardless of
earlier per-device failures (one snapshot per device, and at termination
every listed device has an entry in `results`); and for a nonempty target
list the terminal snapshot has status `completed` and `progress = 100`. -/
theorem claim_C5_amended (env : NetAuto.BulkEnv) (ot : NetAuto.OpType)
    (data : String) (ids : List String) (routers : RouterSim.Routers) :
    NetAuto.progressMono (NetAuto.bulkRun env ot data ids routers) = true ∧
    (NetAuto.bulkRun env ot data ids routers).length = ids.length + 3 ∧
    ((NetAuto.bulkRun env ot data ids routers).getLastD
        NetAuto.dfltSnapshot).status = .completed ∧
    (ids.all (fun d =>
      (RouterSim.mapGet ((NetAuto.bulkRun env ot data ids routers).getLastD
        NetAuto.dfltSnapshot).results d).isSome)) = true ∧
    (ids.isEmpty ||
      (((NetAuto.bulkRun env ot data ids routers).getLastD
        NetAuto.dfltSnapshot).progress == 100)) = true := by
  have hz : (0 : Nat) = NetAuto.progressVal 0 ids.length :=
    (NetAuto.progressVal_zero ids.length).symm
  obtain ⟨resF, hlast, hmem, _⟩ :=
    NetAuto.bulkLoop_last env ot data ids.length ids 0 0 routers []
      { status := .running, progress := 0, results := [] }
  refine ⟨?_, ?_, ?_, ?_, ?_⟩
  · show NetAuto.progressMono
      ({ status := .pending, progress := 0, results := [] } ::
        { status := .running, progress := 0, results := [] } ::
          NetAuto.bulkLoop env ot data ids.length 0 0 routers [] ids) = true
    have hm := NetAuto.bulkLoop_mono env ot data ids.length ids 0 routers []
      { status := .running, progress := 0, results := [] } (by rw [← hz])
    rw [← hz] at hm
    simp only [NetAuto.progressMono, Bool.and_eq_true, Nat.ble_eq]
    exact ⟨Nat.le_refl 0, hm⟩
  · show (_ :: _ :: NetAuto.bulkLoop env ot data ids.length 0 0 routers [] ids).length =
      ids.length + 3
    simp [NetAuto.bulkLoop_length]
  · show ((_ :: _ :: NetAuto.bulkLoop env ot data ids.length 0 0 routers []
        ids).getLastD NetAuto.dfltSnapshot).status = .completed
    rw [List.getLastD_cons, List.getLastD_cons, hlast]
  · show (ids.all (fun d => (RouterSim.mapGet
        (((_ : NetAuto.BulkSnapshot) :: _ :: NetAuto.bulkLoop env ot data ids.length
          0 0 routers [] ids).getLastD NetAuto.dfltSnapshot).results d).isSome)) = true
    rw [List.getLastD_cons, List.getLastD_cons, hlast]
    simp only [List.all_eq_true, decide_eq_true_eq]
    intro d hd
    exact hmem d hd
  · show (ids.isEmpty ||
      ((((_ : NetAuto.BulkSnapshot) :: _ :: NetAuto.bulkLoop env ot data ids.length
        0 0 routers [] ids).getLastD NetAuto.dfltSnapshot).progress == 100)) = true
    rw [List.getLastD_cons, List.getLastD_cons, hlast]
    cases ids with
    | nil => rfl
    | cons d rest =>
      have h100 : NetAuto.progressVal (rest.length + 1) (rest.length + 1) = 100 :=
        NetAuto.progressVal_full _ (by omega)
      simp [h100]

/-- A bulk environment whose provider always fails (each device still gets a
results entry). -/
def c5Env : NetAuto.BulkEnv :=
  { llmFor := fun _ => { success := false, configuration := none, error := none },
    parseFor := fun _ => .unparseable }

/-- C5 (counterexample): for the bulk operation over the duplicated target
list `["d", "d"]`, after the first device is processed the observable state
has an entry in `results` for every device in the target list, yet
`progress` is `50`, not `100` — refuting "`progress` equals 100 exactly when
every device in the target list has an entry in `results`". -/
theorem claim_C5_counterexample :
    ((NetAuto.bulkRun c5Env .command "show clock" ["d", "d"] []).getD 2
        NetAuto.dfltSnapshot).progress = 50 ∧
    (["d", "d"].all (fun d =>
      (RouterSim.mapGet ((NetAuto.bulkRun c5Env .command "show clock" ["d", "d"]
          []).getD 2 NetAuto.dfltSnapshot).results d).isSome)) = true := by
  decide

/-- A simulated router with a nonempty running configuration, target `D1` of
the retrieval-pipeline claims. -/
def c2Router : RouterSim.SimulatedRouter :=
  { RouterSim.createRouter "D1" "R1" "Demo router" "10.0.0.1" with
      runningConfig := "hostname R1" }

/-- Retrieval collaborators that always succeed. -/
def c2Env : PipelineM.RetrievalEnv :=
  { addDocument := fun _ _ => .ok "doc-1",
    runInsights := fun _ => .ok { status := .completed, output := some "insights" } }

/-- C2 (counterexample): with `D1` present (nonempty configuration) and `D2`
unknown, `D2`'s extraction fails and `D1`'s analysis completes; the pipeline
still finishes `completed` — but `analysisResults` holds *no* entry for `D2`
at all (the analysis loop does `if (!config) continue`), so
`analysisResults[D2].error` is not set; the error is recorded in the
extraction stage's map instead. -/
theorem claim_C2_counterexample :
    RouterSim.getRouterConfig [("D1", c2Router)] "D2" = none ∧
    (PipelineM.executeRetrievalPipeline c2Env [("D1", c2Router)]
        ["D1", "D2"]).1.status = .completed ∧
    PipelineM.analysisLookup
        (PipelineM.executeRetrievalPipeline c2Env [("D1", c2Router)]
          ["D1", "D2"]).1 "D1" =
      some (some (.ok "doc-1" (some "insights"))) ∧
    PipelineM.analysisLookup
        (PipelineM.executeRetrievalPipeline c2Env [("D1", c2Router)]
          ["D1", "D2"]).1 "D2" = some none := by
  decide

/-- C2 (amended): in a retrieval pipeline over `[D1, D2]` where `D2`'s
configuration extraction fails while `D1`'s succeeds (and `D1`'s analysis
collaborator calls succeed), `D1`'s analysis completes, the pipeline's
terminal status is `completed`, the *extraction* results contain an entry
for `D2` whose error field is set, and the analysis results contain no entry
for `D2`. -/
theorem claim_C2_amended (env : PipelineM.RetrievalEnv)
    (routers : RouterSim.Routers) (d1 d2 : String)
    (cfg : RouterSim.RouterConfig) (docId : String) (tres : PipelineM.TaskRes)
    (hne : d1 ≠ d2)
    (h1 : RouterSim.getRouterConfig routers d1 = some cfg)
    (hrc : cfg.runningConfig ≠ "")
    (h2 : RouterSim.getRouterConfig routers d2 = none)
    (hdoc : env.addDocument ("Configuration for " ++
      PipelineM.docTitleName (PipelineM.discoverDevices routers [d1, d2]) d1)
        cfg.runningConfig = .ok docId)
    (hins : env.runInsights (PipelineM.insightsPrompt cfg.runningConfig) =
      .ok tres) :
    (PipelineM.executeRetrievalPipeline env routers [d1, d2]).1.status =
      .completed ∧
    PipelineM.configLookup
        (PipelineM.executeRetrievalPipeline env routers [d1, d2]).1 d2 =
      some (some (.err "Failed to retrieve configuration")) ∧
    PipelineM.analysisLookup
        (PipelineM.executeRetrievalPipeline env routers [d1, d2]).1 d1 =
      some (some (.ok docId tres.output)) ∧
    PipelineM.analysisLookup
        (PipelineM.executeRetrievalPipeline env routers [d1, d2]).1 d2 =
      some none := by
  have hcm : PipelineM.extractConfigs routers [d1, d2] =
      [(d1, .ok cfg), (d2, .err "Failed to retrieve configuration")] := by
    simp [PipelineM.extractConfigs, h1, h2, RouterSim.mapSet, hne]
  have har : PipelineM.analyzeDevices env (PipelineM.discoverDevices routers [d1, d2])
      (PipelineM.extractConfigs routers [d1, d2]) [d1, d2] =
        [(d1, .ok docId tres.output)] := by
    rw [hcm]
    simp only [PipelineM.analyzeDevices, List.foldl_cons, List.foldl_nil]
    rw [show RouterSim.mapGet [(d1, PipelineM.ConfigEntry.ok cfg),
      (d2, PipelineM.ConfigEntry.err "Failed to retrieve configuration")] d1 =
        some (PipelineM.ConfigEntry.ok cfg) by
        simp [RouterSim.mapGet, List.find?]]
    rw [show RouterSim.mapGet [(d1, PipelineM.ConfigEntry.ok cfg),
      (d2, PipelineM.ConfigEntry.err "Failed to retrieve configuration")] d2 =
        some (PipelineM.ConfigEntry.err "Failed to retrieve configuration") by
        simp [RouterSim.mapGet, List.find?, hne]]
    simp only [if_neg hrc]
    rw [hdoc, hins]
    rfl
  refine ⟨rfl, ?_, ?_, ?_⟩
  · simp only [PipelineM.executeRetrievalPipeline, PipelineM.configLookup,
      PipelineM.updStage]
    rw [hcm]
    simp [RouterSim.mapGet, List.find?, hne]
  · simp only [PipelineM.executeRetrievalPipeline, PipelineM.analysisLookup,
      PipelineM.updStage]
    rw [har]
    simp [RouterSim.mapGet, List.find?]
  · simp only [PipelineM.executeRetrievalPipeline, PipelineM.analysisLookup,
      PipelineM.updStage]
    rw [har]
    simp [RouterSim.mapGet, List.find?, hne]

/-- C2 (witness): the amended theorem at the concrete two-device store. -/
theorem claim_C2_witness :
    (PipelineM.executeRetrievalPipeline c2Env [("D1", c2Router)]
        ["D1", "D2"]).1.status = .completed ∧
    PipelineM.configLookup
        (PipelineM.executeRetrievalPipeline c2Env [("D1", c2Router)]
          ["D1", "D2"]).1 "D2" =
      some (some (.err "Failed to retrieve configuration")) :=
  ⟨(claim_C2_amended c2Env [("D1", c2Router)] "D1" "D2"
      { runningConfig := "hostname R1", startupConfig := "" } "doc-1"
      { status := .completed, output := some "insights" } (by decide) (by decide)
      (by decide) (by decide) rfl rfl).1,
   (claim_C2_amended c2Env [("D1", c2Router)] "D1" "D2"
      { runningConfig := "hostname R1", startupConfig := "" } "doc-1"
      { status := .completed, output := some "insights" } (by decide) (by decide)
      (by decide) (by decide) rfl rfl).2.1⟩

/-- C3: whenever the deployment pipeline reaches the testing stage (planning
and generation tasks completed with truthy outputs) and the testing-stage
validation of the generated configuration reports at least one issue
(`valid = false`, which holds iff `issues ≠ []`), the pipeline terminates
with the testing stage `failed` and pipeline status `failed`, the deployment
stage stays `pending`, and the simulator state — every device's running
configuration — is unchanged. -/
theorem claim_C3_validation_failure_blocks_deployment (env : PipelineM.DeployEnv)
    (routers : RouterSim.Routers) (command : String) (deviceIds : List String)
    (t1 t2 : PipelineM.TaskRes) (o1 o2 : String)
    (hp : env.runPlanning command (PipelineM.deployDeviceInfo routers deviceIds) =
      .ok t1)
    (h1s : t1.status = .completed) (h1o : t1.output = some o1) (h1ne : o1 ≠ "")
    (hg : env.runGeneration
      { command := command, plan := PipelineM.planValOf env o1,
        deviceInfo := PipelineM.deployDeviceInfo routers deviceIds } = .ok t2)
    (h2s : t2.status = .completed) (h2o : t2.output = some o2) (h2ne : o2 ≠ "")
    (hv : (PipelineM.testValidation (PipelineM.genConfigOf env o2)).valid = false) :
    (PipelineM.executeDeploymentPipeline env routers command deviceIds).1.status =
      .failed ∧
    PipelineM.stageStatusOf
        (PipelineM.executeDeploymentPipeline env routers command deviceIds).1
        "testing" = some .failed ∧
    PipelineM.stageStatusOf
        (PipelineM.executeDeploymentPipeline env routers command deviceIds).1
        "deployment" = some .pending ∧
    (PipelineM.executeDeploymentPipeline env routers command deviceIds).2.1 =
      routers := by
  have hc1 : (t1.status ≠ AgentSys.TaskStatus.completed ||
      !RouterSim.truthy t1.output) = false := by
    simp [h1s, h1o, RouterSim.truthy, h1ne]
  have hc2 : (t2.status ≠ AgentSys.TaskStatus.completed ||
      !RouterSim.truthy t2.output) = false := by
    simp [h2s, h2o, RouterSim.truthy, h2ne]
  have hgetD1 : t1.output.getD "" = o1 := by rw [h1o]; rfl
  have hgetD2 : t2.output.getD "" = o2 := by rw [h2o]; rfl
  have hvb : (!(PipelineM.testValidation (PipelineM.genConfigOf env o2)).valid) =
      true := by
    rw [hv]; rfl
  simp only [PipelineM.executeDeploymentPipeline, hp, hc1, hgetD1, hg, hc2,
    hgetD2, hvb, Bool.false_eq_true, if_false, if_true, reduceIte]
  refine ⟨?_, ?_, ?_, ?_⟩ <;> trivial

/-- Deployment collaborators whose planning and generation tasks succeed,
with the generated text kept verbatim (parse throws) and failing the
security heuristics. -/
def c3Env : PipelineM.DeployEnv :=
  { runPlanning := fun _ _ => .ok { status := .completed, output := some "1. plan" },
    parsePlan := fun _ => .threw,
    runGeneration := fun _ =>
      .ok { status := .completed, output := some "enable password cisco" },
    parseGen := fun _ => .threw,
    applyLLM := fun _ => { success := true, configuration := some "ok", error := none },
    applyParse := fun _ => .parsed true [] }

/-- C3 (witness): the theorem at a concrete run whose generated
configuration uses `enable password` without `service password-encryption`. -/
theorem claim_C3_witness :
    (PipelineM.executeDeploymentPipeline c3Env [("D1", c2Router)]
        "secure the router" ["D1"]).1.status = .failed ∧
    (PipelineM.executeDeploymentPipeline c3Env [("D1", c2Router)]
        "secure the router" ["D1"]).2.1 = [("D1", c2Router)] :=
  ⟨(claim_C3_validation_failure_blocks_deployment c3Env [("D1", c2Router)]
      "secure the router" ["D1"] { status := .completed, output := some "1. plan" }
      { status := .completed, output := some "enable password cisco" }
      "1. plan" "enable password cisco" rfl rfl rfl (by decide) rfl rfl rfl
      (by decide) (by decide)).1,
   (claim_C3_validation_failure_blocks_deployment c3Env [("D1", c2Router)]
      "secure the router" ["D1"] { status := .completed, output := some "1. plan" }
      { status := .completed, output := some "enable password cisco" }
      "1. plan" "enable password cisco" rfl rfl rfl (by decide) rfl rfl rfl
      (by decide) (by decide)).2.2.2⟩

/-- C6: for every pipeline of either shape and all collaborator behaviours,
the stage-update trace satisfies: each per-stage status sequence only
advances forward (`running`, then at most one terminal status), updates
happen in the
declared stage order, and after a `failed` update no later stage is ever
touched; and in the final pipeline every stage after a `failed` one is still
`pending`. -/
theorem claim_C6_stage_statuses_advance_forward :
    (∀ (env : PipelineM.DeployEnv) (routers : RouterSim.Routers)
      (command : String) (ids : List String),
      PipelineM.traceOkB PipelineM.deployOrder
        (PipelineM.executeDeploymentPipeline env routers command ids).2.2 = true ∧
      PipelineM.failedHaltsB (PipelineM.stageStatuses
        (PipelineM.executeDeploymentPipeline env routers command ids).1) = true) ∧
    (∀ (env : PipelineM.RetrievalEnv) (routers : RouterSim.Routers)
      (ids : List String),
      PipelineM.traceOkB PipelineM.retrievalOrder
        (PipelineM.executeRetrievalPipeline env routers ids).2 = true ∧
      PipelineM.failedHaltsB (PipelineM.stageStatuses
        (PipelineM.executeRetrievalPipeline env routers ids).1) = true) := by
  constructor
  · intro env routers command ids
    cases hp : env.runPlanning command (PipelineM.deployDeviceInfo routers ids) with
    | error e =>
      simp only [PipelineM.executeDeploymentPipeline, hp]
      exact ⟨rfl, rfl⟩
    | ok t1 =>
      cases hc1 : (t1.status ≠ AgentSys.TaskStatus.completed ||
          !RouterSim.truthy t1.output) with
      | true =>
        simp only [PipelineM.executeDeploymentPipeline, hp, hc1, if_true]
        exact ⟨rfl, rfl⟩
      | false =>
        cases hg : env.runGeneration
            { command := command,
              plan := PipelineM.planValOf env (t1.output.getD ""),
              deviceInfo := PipelineM.deployDeviceInfo routers ids } with
        | error e =>
          simp only [PipelineM.executeDeploymentPipeline, hp, hc1, hg,
            Bool.false_eq_true, if_false, reduceIte]
          exact ⟨rfl, rfl⟩
        | ok t2 =>
          cases hc2 : (t2.status ≠ AgentSys.TaskStatus.completed ||
              !RouterSim.truthy t2.output) with
          | true =>
            simp only [PipelineM.executeDeploymentPipeline, hp, hc1, hg, hc2,
              Bool.false_eq_true, if_false, if_true, reduceIte]
            exact ⟨rfl, rfl⟩
          | false =>
            cases hv : (!(PipelineM.testValidation
                (PipelineM.genConfigOf env (t2.output.getD ""))).valid) with
            | true =>
              simp only [PipelineM.executeDeploymentPipeline, hp, hc1, hg, hc2,
                hv, Bool.false_eq_true, if_false, if_true, reduceIte]
              exact ⟨rfl, rfl⟩
            | false =>
              rcases hd : PipelineM.deployToDevices env
                  ((PipelineM.genConfigOf env (t2.output.getD "")).getD "")
                  routers [] ids with ⟨rts2, dres⟩
              cases hall : dres.all (fun q => q.2.success) with
              | true =>
                simp only [PipelineM.executeDeploymentPipeline, hp, hc1, hg,
                  hc2, hv, hd, hall, Bool.false_eq_true, if_false, if_true,
                  reduceIte]
                exact ⟨rfl, rfl⟩
              | false =>
                simp only [PipelineM.executeDeploymentPipeline, hp, hc1, hg,
                  hc2, hv, hd, hall, Bool.false_eq_true, if_false, if_true,
                  reduceIte]
                exact ⟨rfl, rfl⟩
  · intro env routers ids
    exact ⟨rfl, rfl⟩
